import Mathlib

/-!
Verification development for the P4 teaching-language checker/interpreter.

The embedding mirrors the Python sources:
  * `src/p4/environment.py`        → namespace `Env` (runtime variable/function store)
  * `src/p4/interpreter.py`        → `interpVisit` and friends (tree-walking evaluator)
  * `src/p4/semantics_checker.py`  → `checkVisit` and friends (static semantics pass)

Lark `Tree`/`Token` objects are modelled by `Node`; Python runtime values by
`PyVal` (Python floats are modelled exactly as rationals; every value used in a
theorem is exactly representable in binary64, so no rounding is elided).
Python exceptions are modelled by explicit error values: each `raise` site in
the sources has its own constructor, and Python-level failures that the sources
do not guard against (AttributeError, IndexError, TypeError, KeyError on a
dict, unhashable keys) are modelled by the `py*` constructors.  Recursion is
made total with an explicit fuel argument; running out of fuel is its own
error, distinct from every error the Python code can raise.
-/

set_option maxHeartbeats 1000000 in
/-- Lark AST node: a `Tree` has a rule name (`data`) and children; a `Token`
has a terminal type and a string value. -/
inductive Node where
  | tree (data : String) (children : List Node)
  | token (ttype : String) (value : String)

/-- Python runtime value as produced by the interpreter: `None`, `int`,
`float` (modelled exactly as a rational), `bool`, `str`, or `list`. -/
inductive PyVal where
  | none
  | int (i : Int)
  | float (q : Rat)
  | bool (b : Bool)
  | str (s : String)
  | list (l : List PyVal)

/-- Runtime (dynamic) errors: one constructor per `raise` site of
`environment.py` / `interpreter.py`, plus constructors for unguarded
Python-level exceptions and for fuel exhaustion. -/
inductive RErr where
  /-- `bad_visit`: `visit_<data> is not implemented.` -/
  | visitNotImplemented (data : String)
  /-- `visit_token`: `Unknown type: <ttype>` -/
  | unknownTokenType (t : String)
  /-- `visit_token`: `<value> is not a valid boolean value.` -/
  | tokenBadBoolean (v : String)
  /-- `error.BooleanError` raised by `coerce_scalar` -/
  | booleanError (v : String)
  /-- `error.UnknownTypeError` raised by `coerce_scalar` -/
  | unknownType (t : String)
  /-- Python `ValueError` from `int(value)` in `coerce_scalar` -/
  | intParseError (s : String)
  /-- Python `ValueError` from `float(value)` in `coerce_scalar` / `visit_decimal` -/
  | floatParseError (s : String)
  /-- `error.DuplicateNameError` raised by `declare_variable` -/
  | duplicateName (n : String)
  /-- `error.UndeclaredNameError` raised by `get_variable` / `set_variable` -/
  | undeclaredName (n : String)
  /-- `error.OverIndexedError` raised by `get_variable` -/
  | overIndexed (n : String)
  /-- `error.IndexRangeError` raised by `get_variable` -/
  | indexRange (idx : Int) (limit : Int)
  /-- Python `ValueError` `Expected k-D value ...` in `set_variable` -/
  | dimsMismatch (expected actual : Nat)
  /-- Python `ValueError` `Array shape ... does not match declared sizes ...` -/
  | shapeMismatch (n : String)
  /-- Python `IndexError('Too many indices for array')` in `set_variable` -/
  | tooManyIndices
  /-- Python `IndexError('Array index i out of range')` in `set_variable` -/
  | setIndexOutOfRange (idx : Int)
  /-- `Cannot assign <v> to array variable <n>...` in `visit_declaration_stmt` -/
  | arrayAssignNonList (n : String)
  /-- Python `NameError('Function n already exists')` in `declare_function` -/
  | funcExists (n : String)
  /-- Python `NameError('Function n is not defined')` in `get_function` -/
  | funcUndefined (n : String)
  /-- `Unsupported operator ...` in the binary-expression visitors -/
  | unsupportedOperator (op : String)
  /-- Python `TypeError` from an operator applied to incompatible values -/
  | badBinOp (op : String)
  /-- Python `ZeroDivisionError` -/
  | zeroDivision
  /-- Python `EOFError` raised by `input()` when the stream is exhausted -/
  | eofError
  /-- unguarded Python `TypeError` (e.g. `len` of an int, unhashable dict key) -/
  | pyTypeError (msg : String)
  /-- unguarded Python `IndexError` from a raw list subscript -/
  | pyIndexError
  /-- unguarded Python `AttributeError` (e.g. `.data` on a `Token`) -/
  | pyAttributeError (msg : String)
  /-- unguarded Python `KeyError` on a dict subscript -/
  | pyKeyError (k : String)
  /-- fuel exhausted (not a Python behaviour; distinct from every real error) -/
  | outOfFuel
deriving DecidableEq

/-- Classification of runtime errors into the spec's `TypeMismatch` kind
(spec section 7: "operand/assignment/return/argument violations", identified
by kind, not by exception identity): coercion failures, value-shape violations
on assignment, assigning a non-list to an array variable, and operator
applications to values of violating types. -/
def RErr.isTypeMismatchKind : RErr → Bool
  | .booleanError _ => true
  | .unknownType _ => true
  | .intParseError _ => true
  | .floatParseError _ => true
  | .dimsMismatch _ _ => true
  | .shapeMismatch _ => true
  | .arrayAssignNonList _ => true
  | .badBinOp _ => true
  | _ => false

/-- Classification of runtime errors into the spec's `RuntimeIO` kind
(input exhausted/unavailable). -/
def RErr.isIOKind : RErr → Bool
  | .eofError => true
  | _ => false

/-! ### Python-dict and Python-value helpers -/

/-- Python dict lookup (`d.get(k)` / `d[k]` success case). -/
def dictGet {α : Type} (d : List (String × α)) (k : String) : Option α :=
  match d with
  | [] => Option.none
  | (k', v) :: rest => if k' = k then some v else dictGet rest k

/-- Python dict insertion `d[k] = v`: updates in place if the key exists,
appends otherwise (insertion order preserved, as in CPython). -/
def dictSet {α : Type} (d : List (String × α)) (k : String) (v : α) :
    List (String × α) :=
  match d with
  | [] => [(k, v)]
  | (k', v') :: rest =>
      if k' = k then (k', v) :: rest else (k', v') :: dictSet rest k v

/-- Python truthiness of a value. -/
def PyVal.truthy : PyVal → Bool
  | .none => false
  | .int i => i ≠ 0
  | .float q => q ≠ 0
  | .bool b => b
  | .str s => s ≠ ""
  | .list l => !l.isEmpty

/-- `isinstance(v, list)`. -/
def PyVal.isList : PyVal → Bool
  | .list _ => true
  | _ => false

/-- `isinstance(v, str)`. -/
def PyVal.isStr : PyVal → Bool
  | .str _ => true
  | _ => false

/-- Python `len(v)`: defined on lists and strings, `TypeError` otherwise
(this models the interpreter's `len` of an `int` crash). -/
def pyLen : PyVal → Except RErr Nat
  | .list l => .ok l.length
  | .str s => .ok s.length
  | _ => .error (.pyTypeError "object has no len")

/-- A value usable as a list index: Python `int` (and `bool`, an `int`
subclass).  Anything else is a `TypeError`. -/
def PyVal.asIndex : PyVal → Except RErr Int
  | .int i => .ok i
  | .bool b => .ok (if b then 1 else 0)
  | _ => .error (.pyTypeError "list indices must be integers")

/-- Python list subscript `l[i]` with negative-index wrap-around. -/
def pyListGet (l : List PyVal) (i : Int) : Except RErr PyVal :=
  let j : Int := if 0 ≤ i then i else i + l.length
  if h : 0 ≤ j ∧ j < l.length then .ok (l.get ⟨j.toNat, by omega⟩)
  else .error .pyIndexError

/-- Python list item assignment `l[i] = v` with negative-index wrap-around. -/
def pyListSet (l : List PyVal) (i : Int) (v : PyVal) :
    Except RErr (List PyVal) :=
  let j : Int := if 0 ≤ i then i else i + l.length
  if 0 ≤ j ∧ j < l.length then .ok (l.set j.toNat v)
  else .error .pyIndexError

/-- Python subscript `v[i]` for the value domain: lists index with
wrap-around, strings yield one-character strings, everything else is a
`TypeError`. -/
def pyGetItem (v : PyVal) (idx : PyVal) : Except RErr PyVal :=
  match v with
  | .list l => do
      let i ← idx.asIndex
      pyListGet l i
  | .str s => do
      let i ← idx.asIndex
      let j : Int := if 0 ≤ i then i else i + s.length
      if 0 ≤ j ∧ j < s.length then
        .ok (.str (String.mk [s.toList.getD j.toNat ' ']))
      else .error .pyIndexError
  | _ => .error (.pyTypeError "object is not subscriptable")

/-- Numeric view of a value (`bool` counts as `int`, as in Python). -/
def PyVal.asNum : PyVal → Option Rat
  | .int i => some (i : Rat)
  | .float q => some q
  | .bool b => some (if b then 1 else 0)
  | _ => Option.none

mutual
/-- Python `==` on the value domain: numeric cross-type equality (so
`5 == 5.0` and `True == 1`), structural equality on strings and lists,
`False` across unrelated types. -/
def pyEqB : PyVal → PyVal → Bool
  | .str a, .str b => a = b
  | .list a, .list b => pyEqList a b
  | .none, .none => true
  | a, b =>
      match a.asNum, b.asNum with
      | some x, some y => x = y
      | _, _ => false

def pyEqList : List PyVal → List PyVal → Bool
  | [], [] => true
  | a :: as', b :: bs' => pyEqB a b && pyEqList as' bs'
  | _, _ => false
end

/-- Python `>=`: numeric comparison (with `bool` as `int`) or string
comparison; anything else is a `TypeError`. -/
def pyGe (a b : PyVal) : Except RErr Bool :=
  match a, b with
  | .str x, .str y => .ok (decide (y ≤ x))
  | _, _ =>
      match a.asNum, b.asNum with
      | some x, some y => .ok (decide (y ≤ x))
      | _, _ => .error (.pyTypeError "unsupported comparison")

/-! ### Environment (`src/p4/environment.py`) -/

namespace Env

/-- One entry of `Environment.variables`: `{'value': ..., 'type': ..., 'sizes': ...}`.
`sizes` is kept as a raw `PyVal` because the interpreter passes an `int`
where the environment expects a list (`visit_declaration_stmt`). -/
structure VarEntry where
  value : PyVal
  type : String
  sizes : PyVal

/-- One entry of `Environment.functions`: `{'type': ..., 'block': ...}` plus
the optional `'parameters'` key. -/
structure FuncEntry where
  type : String
  block : Node
  parameters : Option Node

/-- The runtime `Environment`. -/
structure Environment where
  vars : List (String × VarEntry) := []
  functions : List (String × FuncEntry) := []

/-- `Environment.base`: `type_str.split("[")[0]`, i.e. the prefix of the
type string before the first `[`. -/
def base (type_str : String) : String :=
  String.mk (type_str.toList.takeWhile (fun c => c ≠ '['))

/-- Numeric value of a digit list (most significant first). -/
def digitsVal (cs : List Char) : Nat :=
  cs.foldl (fun acc c => acc * 10 + (c.toNat - '0'.toNat)) 0

/-- Strip leading and trailing whitespace from a character list. -/
def stripWs (cs : List Char) : List Char :=
  ((cs.dropWhile Char.isWhitespace).reverse.dropWhile Char.isWhitespace).reverse

/-- Python `int(s)`: optional surrounding spaces, optional sign, at least one
digit.  (Underscore separators of Python 3.6+ are not modelled; no token in
the sources contains them.) -/
def parsePyInt (s : String) : Option Int :=
  match stripWs s.toList with
  | [] => Option.none
  | c :: rest =>
      let neg := c = '-'
      let digits := if c = '-' ∨ c = '+' then rest else c :: rest
      if digits ≠ [] ∧ digits.all Char.isDigit then
        some (if neg then -(digitsVal digits : Int) else (digitsVal digits : Int))
      else Option.none

/-- Python `float(s)` restricted to the decimal forms `[+-]digits[.digits]`
that the language's tokens can produce. -/
def parsePyFloat (s : String) : Option Rat :=
  match stripWs s.toList with
  | [] => Option.none
  | c :: rest =>
      let neg := c = '-'
      let core := if c = '-' ∨ c = '+' then rest else c :: rest
      let ip := core.takeWhile (fun d => d ≠ '.')
      let rest' := core.dropWhile (fun d => d ≠ '.')
      let fp := if rest' = [] then some [] else
        if (rest'.drop 1).all (fun d => d ≠ '.') then some (rest'.drop 1)
        else Option.none
      match fp with
      | Option.none => Option.none
      | some f =>
          if (ip ≠ [] ∨ f ≠ []) ∧ ip.all Char.isDigit ∧ f.all Char.isDigit then
            let q : Rat := (digitsVal (ip ++ f) : Rat) / ((10 : Rat) ^ f.length)
            some (if neg then -q else q)
          else Option.none

/-- `Environment.coerce_scalar`: strings are converted to the declared base
type (Python `int`/`float` conversion, the four boolean spellings, identity
for `string`); non-strings pass through unchanged. -/
def coerce_scalar (value : PyVal) (type_str : String) : Except RErr PyVal :=
  match value with
  | .str s =>
      let b := base type_str
      if b = "integer" then
        match parsePyInt s with
        | some i => .ok (.int i)
        | Option.none => .error (.intParseError s)
      else if b = "decimal" then
        match parsePyFloat s with
        | some q => .ok (.float q)
        | Option.none => .error (.floatParseError s)
      else if b = "boolean" then
        if s = "true" ∨ s = "sand" then .ok (.bool true)
        else if s = "false" ∨ s = "falsk" then .ok (.bool false)
        else .error (.booleanError s)
      else if b = "string" then .ok (.str s)
      else .error (.unknownType b)
  | v => .ok v

mutual
/-- `Environment.coerce_any`: `coerce_scalar` mapped through nested lists. -/
def coerce_any (val : PyVal) (type_str : String) : Except RErr PyVal :=
  match val with
  | .list l => do
      let l' ← coerce_list l type_str
      .ok (.list l')
  | v => coerce_scalar v type_str

def coerce_list (l : List PyVal) (type_str : String) :
    Except RErr (List PyVal) :=
  match l with
  | [] => .ok []
  | v :: rest => do
      let v' ← coerce_any v type_str
      let rest' ← coerce_list rest type_str
      .ok (v' :: rest')
end

/-- `Environment.get_dimensions`: nesting depth along first elements; an
empty list still counts as one dimension. -/
def get_dimensions : PyVal → Nat
  | .list [] => 1
  | .list (v :: _) => 1 + get_dimensions v
  | _ => 0

mutual
/-- `Environment.shape_matches`: does `value` have exactly the declared
shape?  `sizes` is a raw `PyVal` (falsy sizes demand a scalar); comparing
`len(value)` with a non-numeric size entry is Python `!=`, hence `False`
rather than an error. -/
def shape_matches (value sizes : PyVal) : Except RErr Bool :=
  if ¬ sizes.truthy then .ok (¬ value.isList)
  else
    match value with
    | .list l =>
        match sizes with
        | .list (s0 :: srest) =>
            if ¬ pyEqB (.int l.length) s0 then .ok false
            else shape_matches_all l (.list srest)
        | .list [] => .ok false
        | _ => .error (.pyTypeError "object is not subscriptable")
    | _ => .ok false

def shape_matches_all (l : List PyVal) (sizes : PyVal) : Except RErr Bool :=
  match l with
  | [] => .ok true
  | v :: rest => do
      let b ← shape_matches v sizes
      if b then shape_matches_all rest sizes else .ok false
end

/-- `Environment.make_array`: builds the default nested `None` array for the
declared sizes.  `len` of a non-list/str `sizes` is the Python `TypeError`
the interpreter triggers when it passes an `int`. -/
def make_array_list : List PyVal → Except RErr PyVal
  | [] => .ok .none
  | s :: rest => do
      let sub ← make_array_list rest
      match s.asIndex with
      | .ok n => .ok (.list (List.replicate n.toNat sub))
      | .error _ => .error (.pyTypeError "range arg must be an int")

/-- Entry point of `make_array` on the raw `sizes` value. -/
def make_array (sizes : PyVal) : Except RErr PyVal :=
  match sizes with
  | .list l => make_array_list l
  | .str s => if s = "" then .ok .none else .error (.pyTypeError "range arg must be an int")
  | _ => .error (.pyTypeError "object has no len")

/-- `Environment.declare_variable`. -/
def declare_variable (env : Environment) (name type_str : String)
    (sizes : Option PyVal := Option.none) : Except RErr Environment := do
  if (dictGet env.vars name).isSome then
    .error (.duplicateName name)
  else
    let sz := sizes.getD (.list [])
    let v ← make_array sz
    .ok { env with
          vars := dictSet env.vars name ⟨v, type_str, sz⟩ }

/-- The index-walking loop of `Environment.get_variable`: at each depth,
guard `idx >= sizes[depth]` (raising `IndexRangeError`), then take the
Python subscript. -/
def get_walk (value : PyVal) (sizes : PyVal) (idxs : List PyVal)
    (depth : Nat) : Except RErr PyVal :=
  match idxs with
  | [] => .ok value
  | idx :: rest => do
      let s ← pyGetItem sizes (.int depth)
      let ge ← pyGe idx s
      if ge then
        .error (.indexRange (idx.asIndex.toOption.getD 0) (s.asIndex.toOption.getD 0))
      else do
        let value' ← pyGetItem value idx
        get_walk value' sizes rest (depth + 1)

/-- `Environment.get_variable`. -/
def get_variable (env : Environment) (name : String)
    (array_index : Option (List PyVal) := Option.none) : Except RErr PyVal := do
  match dictGet env.vars name with
  | Option.none => .error (.undeclaredName name)
  | some var =>
      match array_index with
      | Option.none => .ok var.value
      | some idxs => do
          let lenS ← pyLen var.sizes
          if idxs.length > lenS then .error (.overIndexed name)
          else get_walk var.value var.sizes idxs 0

/-- The element-assignment walk of `Environment.set_variable`: prefix guards
`idx >= sizes[depth]` then descent; at the last index, guard against
`sizes[len(array_index)-1]`, scalar-coerce the (already list-coerced) value,
and assign in place. -/
def set_walk (tgt : PyVal) (sizes : PyVal) (idxs : List PyVal)
    (depth total : Nat) (value : PyVal) (type_str : String) :
    Except RErr PyVal :=
  match idxs with
  | [] => .error .pyIndexError
  | [last] => do
      let s ← pyGetItem sizes (.int (total - 1))
      let ge ← pyGe last s
      if ge then .error (.setIndexOutOfRange
        ((last.asIndex).toOption.getD 0))
      else do
        let w ← coerce_scalar value type_str
        match tgt with
        | .list l => do
            let i ← last.asIndex
            let l' ← pyListSet l i w
            .ok (.list l')
        | _ => .error (.pyTypeError "object does not support item assignment")
  | idx :: rest => do
      let s ← pyGetItem sizes (.int depth)
      let ge ← pyGe idx s
      if ge then .error (.setIndexOutOfRange
        ((idx.asIndex).toOption.getD 0))
      else
        match tgt with
        | .list l => do
            let i ← idx.asIndex
            let sub ← pyListGet l i
            let sub' ← set_walk sub sizes rest (depth + 1) total value type_str
            let l' ← pyListSet l i sub'
            .ok (.list l')
        | _ => .error (.pyTypeError "object is not subscriptable")

/-- `Environment.set_variable`: coerce the whole value first; whole-variable
assignment then requires the exact dimension count and (for arrays) the exact
declared shape; element assignment walks guarded indices and assigns the
scalar-coerced value in place. -/
def set_variable (env : Environment) (name : String) (value : PyVal)
    (array_index : Option (List PyVal) := Option.none) :
    Except RErr Environment := do
  match dictGet env.vars name with
  | Option.none => .error (.undeclaredName name)
  | some var => do
      let value ← coerce_any value var.type
      match array_index with
      | Option.none => do
          let lenS ← pyLen var.sizes
          if get_dimensions value ≠ lenS then
            .error (.dimsMismatch lenS (get_dimensions value))
          else if var.sizes.truthy then do
            let ok' ← shape_matches value var.sizes
            if ¬ ok' then .error (.shapeMismatch name)
            else .ok { env with
              vars := dictSet env.vars name { var with value := value } }
          else
            .ok { env with
              vars := dictSet env.vars name { var with value := value } }
      | some idxs => do
          let lenS ← pyLen var.sizes
          if idxs.length > lenS then .error .tooManyIndices
          else do
            let v' ← set_walk var.value var.sizes idxs 0 idxs.length value var.type
            .ok { env with
              vars := dictSet env.vars name { var with value := v' } }

/-- `Environment.declare_function`. -/
def declare_function (env : Environment) (name return_type : String)
    (block : Node) (parameters : Option Node := Option.none) :
    Except RErr Environment :=
  if (dictGet env.functions name).isSome then
    .error (.funcExists name)
  else
    .ok { env with
          functions := dictSet env.functions name ⟨return_type, block, parameters⟩ }

/-- `Environment.get_function`. -/
def get_function (env : Environment) (name : String) :
    Except RErr FuncEntry :=
  match dictGet env.functions name with
  | Option.none => .error (.funcUndefined name)
  | some f => .ok f

end Env

/-! ### Interpreter (`src/p4/interpreter.py`) -/

/-- External I/O of one run: the pending stdin lines and the emitted stdout
lines (shared by caller and callee interpreters, like the real process
streams). -/
structure IOState where
  input : List String := []
  output : List String := []

/-- `.children` attribute access (AttributeError on a `Token`). -/
def nodeChildren : Node → Except RErr (List Node)
  | .tree _ cs => .ok cs
  | .token _ _ => .error (.pyAttributeError "children")

/-- Use of a node as a dict key: a `Token` hashes as its string value, a
lark `Tree` defines `__eq__` without `__hash__` and is unhashable. -/
def nodeKey : Node → Except RErr String
  | .token _ v => .ok v
  | .tree _ _ => .error (.pyTypeError "unhashable type")

/-- `.value` attribute access (AttributeError on a `Tree`). -/
def nodeValue : Node → Except RErr String
  | .token _ v => .ok v
  | .tree _ _ => .error (.pyAttributeError "value")

/-- `str(node)` as used inside f-strings: a `Token` is its value, a `Tree`
renders as its repr (modelled just closely enough to never parse as a
number). -/
def nodeDisplay : Node → String
  | .token _ v => v
  | .tree d _ => "Tree(" ++ d ++ ")"

/-- Python `node == "lit"`: true only for a `Token` with that value. -/
def nodeIsStr : Node → String → Bool
  | .token _ v, s => v = s
  | .tree _ _, _ => false

/-- List access that models Python's `IndexError`. -/
def listGetE (l : List Node) (n : Nat) : Except RErr Node :=
  match l.get? n with
  | some x => .ok x
  | Option.none => .error .pyIndexError

/-- Integer view used by Python arithmetic (`bool` is an `int`). -/
def PyVal.asIntNum : PyVal → Option Int
  | .int i => some i
  | .bool b => some (if b then 1 else 0)
  | _ => Option.none

/-- Rational floor-modulo (the semantics of Python `%` on floats). -/
def ratFMod (x y : Rat) : Rat := x - y * ((x / y).floor : Rat)

/-- Python arithmetic on numbers: stays `int` on int/bool operands (except
`/`, which is always true division yielding a float), floats otherwise. -/
def pyArith (op : String) (a b : PyVal) : Except RErr PyVal :=
  match a.asIntNum, b.asIntNum with
  | some x, some y =>
      if op = "+" then .ok (.int (x + y))
      else if op = "-" then .ok (.int (x - y))
      else if op = "*" then .ok (.int (x * y))
      else if op = "/" then
        if y = 0 then .error .zeroDivision
        else .ok (.float ((x : Rat) / (y : Rat)))
      else if op = "%" then
        if y = 0 then .error .zeroDivision
        else .ok (.int (x.fmod y))
      else .error (.badBinOp op)
  | _, _ =>
      match a.asNum, b.asNum with
      | some x, some y =>
          if op = "+" then .ok (.float (x + y))
          else if op = "-" then .ok (.float (x - y))
          else if op = "*" then .ok (.float (x * y))
          else if op = "/" then
            if y = 0 then .error .zeroDivision
            else .ok (.float (x / y))
          else if op = "%" then
            if y = 0 then .error .zeroDivision
            else .ok (.float (ratFMod x y))
          else .error (.badBinOp op)
      | _, _ => .error (.badBinOp op)

/-- Python `+` on the value domain (string and list concatenation, numbers
otherwise). -/
def pyAddV (a b : PyVal) : Except RErr PyVal :=
  match a, b with
  | .str x, .str y => .ok (.str (x ++ y))
  | .list x, .list y => .ok (.list (x ++ y))
  | _, _ => pyArith "+" a b

/-- Python `-`. -/
def pySubV (a b : PyVal) : Except RErr PyVal := pyArith "-" a b

/-- Python `*` (including sequence repetition). -/
def pyMulV (a b : PyVal) : Except RErr PyVal :=
  match a, b with
  | .str x, _ =>
      match b.asIntNum with
      | some n => .ok (.str (String.join (List.replicate n.toNat x)))
      | Option.none => .error (.badBinOp "*")
  | _, .str y =>
      match a.asIntNum with
      | some n => .ok (.str (String.join (List.replicate n.toNat y)))
      | Option.none => .error (.badBinOp "*")
  | .list x, _ =>
      match b.asIntNum with
      | some n => .ok (.list (List.flatten (List.replicate n.toNat x)))
      | Option.none => .error (.badBinOp "*")
  | _, .list y =>
      match a.asIntNum with
      | some n => .ok (.list (List.flatten (List.replicate n.toNat y)))
      | Option.none => .error (.badBinOp "*")
  | _, _ => pyArith "*" a b

/-- Python `/` (always true division). -/
def pyDivV (a b : PyVal) : Except RErr PyVal := pyArith "/" a b

/-- Python `%` on numbers (string formatting is not modelled: the sources
never produce a string left operand for `%` in a program the checker
accepts, and no claim depends on it). -/
def pyModV (a b : PyVal) : Except RErr PyVal := pyArith "%" a b

/-- Python unary minus. -/
def pyNegV (a : PyVal) : Except RErr PyVal :=
  match a.asIntNum with
  | some x => .ok (.int (-x))
  | Option.none =>
      match a with
      | .float q => .ok (.float (-q))
      | _ => .error (.badBinOp "unary-")

/-- Python ordering comparisons (numbers and strings; list ordering is not
modelled — no claim touches it). -/
def pyCompareV (op : String) (a b : PyVal) : Except RErr PyVal :=
  match a, b with
  | .str x, .str y =>
      if op = "<" then .ok (.bool (decide (x < y)))
      else if op = ">" then .ok (.bool (decide (y < x)))
      else if op = "<=" then .ok (.bool (decide (x ≤ y)))
      else if op = ">=" then .ok (.bool (decide (y ≤ x)))
      else .error (.unsupportedOperator op)
  | _, _ =>
      match a.asNum, b.asNum with
      | some x, some y =>
          if op = "<" then .ok (.bool (decide (x < y)))
          else if op = ">" then .ok (.bool (decide (y < x)))
          else if op = "<=" then .ok (.bool (decide (x ≤ y)))
          else if op = ">=" then .ok (.bool (decide (y ≤ x)))
          else .error (.unsupportedOperator op)
      | _, _ => .error (.badBinOp op)

/-- `str(value)` for `output` lines (best effort; no claim inspects the
rendered text, only whether a line was emitted). -/
def PyVal.pyStr : PyVal → String
  | .none => "None"
  | .int i => toString i
  | .float q => if q.den = 1 then toString q.num ++ ".0" else toString q.num ++ "/" ++ toString q.den
  | .bool b => if b then "True" else "False"
  | .str s => s
  | .list _ => "[...]"

/-- `ast.literal_eval` restricted to the double-quoted string literals the
grammar produces (escape sequences are not modelled; no token in a claim
contains one). -/
def literalEvalStr (v : String) : Except RErr PyVal :=
  if v.length ≥ 2 ∧ v.startsWith "\"" ∧ v.endsWith "\"" then
    .ok (.str ((v.drop 1).dropRight 1))
  else .error (.pyTypeError "malformed string literal")

mutual

/-- `Interpreter.visit`: dispatch on the node, one evaluation rule per node
kind (`visit_<data>`); a `Tree` whose `data` has no rule hits `bad_visit`.
Returns the visit's value together with the (possibly mutated) environment
and I/O streams.  Fuel decreases on every recursive step; exhaustion is the
distinguished `outOfFuel` error. -/
def interpVisit (fuel : Nat) (env : Env.Environment) (io : IOState)
    (node : Node) : Except RErr (PyVal × Env.Environment × IOState) :=
  match fuel with
  | 0 => .error .outOfFuel
  | fuel + 1 =>
    match node with
    | .token ttype v =>
        if ttype = "INT" then
          match Env.parsePyInt v with
          | some i => .ok (.int i, env, io)
          | Option.none => .error (.intParseError v)
        else if ttype = "ID" then do
          let val ← Env.get_variable env v
          .ok (val, env, io)
        else if ttype = "NEWLINE" then .ok (.none, env, io)
        else if ttype = "BOOLEAN" then
          if v = "true" then .ok (.bool true, env, io)
          else if v = "false" then .ok (.bool false, env, io)
          else .error (.tokenBadBoolean v)
        else .error (.unknownTokenType ttype)
    | .tree data cs =>
        if data = "start" then do
          let (env', io') ← interpSeq fuel env io cs
          .ok (.none, env', io')
        else if data = "block" then
          interpStmts fuel env io cs
        else if data = "decimal" then do
          let c0 ← listGetE cs 0
          let c1 ← listGetE cs 1
          match Env.parsePyFloat (nodeDisplay c0 ++ "." ++ nodeDisplay c1) with
          | some q => .ok (.float q, env, io)
          | Option.none =>
              .error (.floatParseError (nodeDisplay c0 ++ "." ++ nodeDisplay c1))
        else if data = "string" then do
          let c0 ← listGetE cs 0
          let s ← literalEvalStr (nodeDisplay c0)
          .ok (s, env, io)
        else if data = "uminus" then do
          let c1 ← listGetE cs 1
          let (v, env1, io1) ← interpVisit fuel env io c1
          let r ← pyNegV v
          .ok (r, env1, io1)
        else if data = "negate" then do
          let c0 ← listGetE cs 0
          let (v, env1, io1) ← interpVisit fuel env io c0
          .ok (.bool (!v.truthy), env1, io1)
        else if data = "add_expr" then do
          let c0 ← listGetE cs 0
          let (r, env1, io1) ← interpVisit fuel env io c0
          interpAddFold fuel env1 io1 r (cs.drop 1)
        else if data = "mul_expr" then do
          let c0 ← listGetE cs 0
          let (r, env1, io1) ← interpVisit fuel env io c0
          interpMulFold fuel env1 io1 r (cs.drop 1)
        else if data = "equality_expr" then do
          let c0 ← listGetE cs 0
          let (v1, env1, io1) ← interpVisit fuel env io c0
          let c2 ← listGetE cs 2
          let (v2, env2, io2) ← interpVisit fuel env1 io1 c2
          let opN ← listGetE cs 1
          if nodeIsStr opN "==" then .ok (.bool (pyEqB v1 v2), env2, io2)
          else if nodeIsStr opN "!=" then .ok (.bool (!pyEqB v1 v2), env2, io2)
          else .error (.unsupportedOperator (nodeDisplay opN))
        else if data = "relational_expr" then do
          let c0 ← listGetE cs 0
          let (v1, env1, io1) ← interpVisit fuel env io c0
          let c2 ← listGetE cs 2
          let (v2, env2, io2) ← interpVisit fuel env1 io1 c2
          let opN ← listGetE cs 1
          if nodeIsStr opN "<" then do
            let r ← pyCompareV "<" v1 v2
            .ok (r, env2, io2)
          else if nodeIsStr opN ">" then do
            let r ← pyCompareV ">" v1 v2
            .ok (r, env2, io2)
          else if nodeIsStr opN "<=" then do
            let r ← pyCompareV "<=" v1 v2
            .ok (r, env2, io2)
          else if nodeIsStr opN ">=" then do
            let r ← pyCompareV ">=" v1 v2
            .ok (r, env2, io2)
          else .error (.unsupportedOperator (nodeDisplay opN))
        else if data = "and_expr" then do
          let c0 ← listGetE cs 0
          let (r, env1, io1) ← interpVisit fuel env io c0
          interpAndFold fuel env1 io1 r (cs.drop 1)
        else if data = "or_expr" then do
          let c0 ← listGetE cs 0
          let (r, env1, io1) ← interpVisit fuel env io c0
          interpOrFold fuel env1 io1 r (cs.drop 1)
        else if data = "expr_stmt" then do
          let c0 ← listGetE cs 0
          interpVisit fuel env io c0
        else if data = "declaration_stmt" then do
          let typeN ← listGetE cs 0
          let nameN ← listGetE cs 1
          let n := cs.length
          if n = 2 then do
            let name ← nodeKey nameN
            let env1 ← Env.declare_variable env name (nodeDisplay typeN)
            .ok (.none, env1, io)
          else do
            let c2 ← listGetE cs 2
            let isArr := match c2 with
              | .tree d _ => decide (d = "array_suffix")
              | .token _ _ => false
            if isArr then do
              let cm2 ← listGetE cs (n - 2)
              match cm2 with
              | .token _ _ => .error (.pyAttributeError "data")
              | .tree d2 _ =>
                -- hasValue starts with a debug print of node.data
                let io := { io with output := io.output ++ [d2] }
                if d2 = "array_suffix" then do
                  let lastN ← listGetE cs (n - 1)
                  let (av, env1, io1) ← interpVisit fuel env io lastN
                  if ¬ av.isList then
                    .error (.arrayAssignNonList (nodeDisplay nameN))
                  else do
                    let name ← nodeKey nameN
                    -- BUG in the source: array_depth (an int) is passed where
                    -- declare_variable expects a sizes list
                    let env2 ← Env.declare_variable env1 name (nodeDisplay typeN)
                        (some (.int (n - 3)))
                    let env3 ← Env.set_variable env2 name av
                    .ok (.none, env3, io1)
                else do
                  let name ← nodeKey nameN
                  let env1 ← Env.declare_variable env name (nodeDisplay typeN)
                      (some (.int (n - 2)))
                  .ok (.none, env1, io)
            else do
              let name ← nodeKey nameN
              let env1 ← Env.declare_variable env name (nodeDisplay typeN)
              let lastN ← listGetE cs (n - 1)
              let (v, env2, io1) ← interpVisit fuel env1 io lastN
              let env3 ← Env.set_variable env2 name v
              .ok (.none, env3, io1)
        else if data = "assignment_stmt" then do
          let lA ← listGetE cs 0
          let lcs ← nodeChildren lA
          let nameN ← listGetE lcs 0
          let name ← nodeKey nameN
          let rhsN ← listGetE cs 1
          let (v, env1, io1) ← interpVisit fuel env io rhsN
          if lcs.length - 1 = 0 then do
            let env2 ← Env.set_variable env1 name v
            .ok (.none, env2, io1)
          else do
            let (idxs, env2, io2) ← interpEvalList fuel env1 io1 (lcs.drop 1)
            let env3 ← Env.set_variable env2 name v (some idxs)
            .ok (.none, env3, io2)
        else if data = "if_stmt" then do
          let c0 ← listGetE cs 0
          let c1 ← listGetE cs 1
          let (cv, env1, io1) ← interpVisit fuel env io c0
          if cv.truthy then do
            let (_, env2, io2) ← interpVisit fuel env1 io1 c1
            .ok (.none, env2, io2)
          else if cs.length = 3 then do
            let c2 ← listGetE cs 2
            let (_, env2, io2) ← interpVisit fuel env1 io1 c2
            .ok (.none, env2, io2)
          else .ok (.none, env1, io1)
        else if data = "while_stmt" then do
          let c0 ← listGetE cs 0
          let c1 ← listGetE cs 1
          let (env1, io1) ← interpWhile fuel env io c0 c1
          .ok (.none, env1, io1)
        else if data = "return_stmt" then do
          let c0 ← listGetE cs 0
          interpVisit fuel env io c0
        else if data = "output_stmt" then do
          let c0 ← listGetE cs 0
          let (v, env1, io1) ← interpVisit fuel env io c0
          .ok (.none, env1, { io1 with output := io1.output ++ [v.pyStr] })
        else if data = "input_stmt" then
          match io.input with
          | [] => .error .eofError
          | s :: rest => .ok (.str s, env, { io with input := rest })
        else if data = "function_definition" then do
          let nameN ← listGetE cs 1
          let typeN ← listGetE cs 0
          let blockN ← listGetE cs (cs.length - 1)
          if nodeIsStr nameN "main" then do
            let (_, env1, io1) ← interpVisit fuel env io blockN
            .ok (.none, env1, io1)
          else do
            let fname ← nodeKey nameN
            if cs.length = 4 then do
              let paramsN ← listGetE cs 2
              let env1 ← Env.declare_function env fname (nodeDisplay typeN)
                  blockN (some paramsN)
              .ok (.none, env1, io)
            else do
              let env1 ← Env.declare_function env fname (nodeDisplay typeN) blockN
              .ok (.none, env1, io)
        else if data = "postfix_expr" then do
          let nameN ← listGetE cs 0
          let suffixN ← listGetE cs (cs.length - 1)
          match suffixN with
          | .token _ _ => .error (.pyAttributeError "data")
          | .tree sd scs =>
            if sd = "call_suffix" then do
              let fname ← nodeKey nameN
              -- fresh Environment; functions dict copied from the caller
              let calleeEnv : Env.Environment := ⟨[], env.functions⟩
              let (callerEnv1, calleeEnv1, io1) ←
                if scs.length = 1 then do
                  let argsN ← listGetE scs 0
                  let argCs ← nodeChildren argsN
                  interpBindParams fuel env io calleeEnv fname argCs 0
                else .ok (env, calleeEnv, io)
              let fent ← Env.get_function callerEnv1 fname
              let (_bv, _, io2) ← interpVisit fuel calleeEnv1 io1 fent.block
              -- `self.visit(<bubbled value>)`: runtime values are neither
              -- Tree nor Token, so the outer visit yields None and the
              -- bubbled value is discarded
              .ok (.none, callerEnv1, io2)
            else if sd = "array_access_suffix" then do
              let (idxs, env1, io1) ← interpEvalList fuel env io (cs.drop 1)
              let vname ← nodeKey nameN
              let v ← Env.get_variable env1 vname (some idxs)
              .ok (v, env1, io1)
            else .ok (.none, env, io)
        else if data = "array_suffix" then
          .ok (.bool true, env, io)
        else if data = "array_access_suffix" then do
          let c0 ← listGetE cs 0
          interpVisit fuel env io c0
        else if data = "array_literal" then do
          let c0 ← listGetE cs 0
          let ccs ← nodeChildren c0
          let (vals, env1, io1) ← interpEvalList fuel env io ccs
          .ok (.list vals, env1, io1)
        else if data = "syntax" then do
          let c0 ← listGetE cs 0
          let c2 ← listGetE cs 2
          .ok (.none, env, { io with output := io.output ++
            ["You are programming in " ++ nodeDisplay c0 ++ " using " ++
              nodeDisplay c2] })
        else .error (.visitNotImplemented data)

termination_by structural fuel
/-- `visit_start`'s loop: visit children in order, dropping their values. -/
def interpSeq (fuel : Nat) (env : Env.Environment) (io : IOState)
    (nodes : List Node) : Except RErr (Env.Environment × IOState) :=
  match fuel with
  | 0 => .error .outOfFuel
  | fuel + 1 =>
    match nodes with
    | [] => .ok (env, io)
    | c :: rest => do
        let (_, env1, io1) ← interpVisit fuel env io c
        interpSeq fuel env1 io1 rest

termination_by structural fuel
/-- `visit_block`'s loop: visit statements in order and return the first
result that `is not None`. -/
def interpStmts (fuel : Nat) (env : Env.Environment) (io : IOState)
    (nodes : List Node) : Except RErr (PyVal × Env.Environment × IOState) :=
  match fuel with
  | 0 => .error .outOfFuel
  | fuel + 1 =>
    match nodes with
    | [] => .ok (.none, env, io)
    | s :: rest => do
        let (v, env1, io1) ← interpVisit fuel env io s
        match v with
        | .none => interpStmts fuel env1 io1 rest
        | _ => .ok (v, env1, io1)

termination_by structural fuel
/-- `visit_add_expr`'s operator/operand loop. -/
def interpAddFold (fuel : Nat) (env : Env.Environment) (io : IOState)
    (r : PyVal) (nodes : List Node) :
    Except RErr (PyVal × Env.Environment × IOState) :=
  match fuel with
  | 0 => .error .outOfFuel
  | fuel + 1 =>
    match nodes with
    | [] => .ok (r, env, io)
    | [_op] => .error .pyIndexError
    | op :: rhs :: rest => do
        let (operand, env1, io1) ← interpVisit fuel env io rhs
        if nodeIsStr op "+" then do
          let r' ← pyAddV r operand
          interpAddFold fuel env1 io1 r' rest
        else if nodeIsStr op "-" then do
          let r' ← pySubV r operand
          interpAddFold fuel env1 io1 r' rest
        else .error (.unsupportedOperator (nodeDisplay op))

termination_by structural fuel
/-- `visit_mul_expr`'s operator/operand loop. -/
def interpMulFold (fuel : Nat) (env : Env.Environment) (io : IOState)
    (r : PyVal) (nodes : List Node) :
    Except RErr (PyVal × Env.Environment × IOState) :=
  match fuel with
  | 0 => .error .outOfFuel
  | fuel + 1 =>
    match nodes with
    | [] => .ok (r, env, io)
    | [_op] => .error .pyIndexError
    | op :: rhs :: rest => do
        let (operand, env1, io1) ← interpVisit fuel env io rhs
        if nodeIsStr op "*" then do
          let r' ← pyMulV r operand
          interpMulFold fuel env1 io1 r' rest
        else if nodeIsStr op "/" then do
          let r' ← pyDivV r operand
          interpMulFold fuel env1 io1 r' rest
        else if nodeIsStr op "%" then do
          let r' ← pyModV r operand
          interpMulFold fuel env1 io1 r' rest
        else .error (.unsupportedOperator (nodeDisplay op))

termination_by structural fuel
/-- `visit_and_expr`'s loop (`result = result and boolean`). -/
def interpAndFold (fuel : Nat) (env : Env.Environment) (io : IOState)
    (r : PyVal) (nodes : List Node) :
    Except RErr (PyVal × Env.Environment × IOState) :=
  match fuel with
  | 0 => .error .outOfFuel
  | fuel + 1 =>
    match nodes with
    | [] => .ok (r, env, io)
    | c :: rest => do
        let (b, env1, io1) ← interpVisit fuel env io c
        interpAndFold fuel env1 io1 (if r.truthy then b else r) rest

termination_by structural fuel
/-- `visit_or_expr`'s loop (`result = result or boolean`). -/
def interpOrFold (fuel : Nat) (env : Env.Environment) (io : IOState)
    (r : PyVal) (nodes : List Node) :
    Except RErr (PyVal × Env.Environment × IOState) :=
  match fuel with
  | 0 => .error .outOfFuel
  | fuel + 1 =>
    match nodes with
    | [] => .ok (r, env, io)
    | c :: rest => do
        let (b, env1, io1) ← interpVisit fuel env io c
        interpOrFold fuel env1 io1 (if r.truthy then r else b) rest

termination_by structural fuel
/-- Sequential evaluation of a list of nodes to values (array-literal
elements, index expressions). -/
def interpEvalList (fuel : Nat) (env : Env.Environment) (io : IOState)
    (nodes : List Node) :
    Except RErr (List PyVal × Env.Environment × IOState) :=
  match fuel with
  | 0 => .error .outOfFuel
  | fuel + 1 =>
    match nodes with
    | [] => .ok ([], env, io)
    | c :: rest => do
        let (v, env1, io1) ← interpVisit fuel env io c
        let (vs, env2, io2) ← interpEvalList fuel env1 io1 rest
        .ok (v :: vs, env2, io2)

termination_by structural fuel
/-- `visit_while_stmt`'s loop. -/
def interpWhile (fuel : Nat) (env : Env.Environment) (io : IOState)
    (cond blk : Node) : Except RErr (Env.Environment × IOState) :=
  match fuel with
  | 0 => .error .outOfFuel
  | fuel + 1 => do
    let (cv, env1, io1) ← interpVisit fuel env io cond
    if cv.truthy then do
      let (_, env2, io2) ← interpVisit fuel env1 io1 blk
      interpWhile fuel env2 io2 cond blk
    else .ok (env1, io1)

termination_by structural fuel
/-- `visit_postfix_expr`'s parameter-binding loop: for the i-th argument,
look the function up again, read the i-th parameter's name, evaluate the
argument in the caller, read the parameter's declared type, then declare and
assign it in the callee frame. -/
def interpBindParams (fuel : Nat) (callerEnv : Env.Environment) (io : IOState)
    (calleeEnv : Env.Environment) (fname : String) (args : List Node)
    (i : Nat) :
    Except RErr (Env.Environment × Env.Environment × IOState) :=
  match fuel with
  | 0 => .error .outOfFuel
  | fuel + 1 =>
    match args with
    | [] => .ok (callerEnv, calleeEnv, io)
    | a :: rest => do
        let fent ← Env.get_function callerEnv fname
        let pnode ← match fent.parameters with
          | some p => .ok p
          | Option.none => .error (.pyKeyError "parameters")
        let pcs ← nodeChildren pnode
        let pi' ← listGetE pcs i
        let pics ← nodeChildren pi'
        let n1 ← listGetE pics 1
        let pname ← nodeValue n1
        let (v, callerEnv1, io1) ← interpVisit fuel callerEnv io a
        let fent2 ← Env.get_function callerEnv1 fname
        let pnode2 ← match fent2.parameters with
          | some p => .ok p
          | Option.none => .error (.pyKeyError "parameters")
        let pcs2 ← nodeChildren pnode2
        let pi2 ← listGetE pcs2 i
        let pics2 ← nodeChildren pi2
        let n0 ← listGetE pics2 0
        let ptype ← nodeValue n0
        let calleeEnv1 ← Env.declare_variable calleeEnv pname ptype
        let calleeEnv2 ← Env.set_variable calleeEnv1 pname v
        interpBindParams fuel callerEnv1 io1 calleeEnv2 fname rest (i + 1)

termination_by structural fuel
end

/-! ### Semantics checker (`src/p4/semantics_checker.py`) -/

/-- Error kinds of the static error taxonomy (spec section 7). -/
inductive CKind where
  | typeK | scopeK | caseK | structureK | crashK | fuelK
deriving DecidableEq

/-- Static errors: one constructor per `StaticError` subclass raised in
`semantics_checker.py`, plus `checkerCrash` for unguarded Python-level
failures inside the checker itself and `cOutOfFuel` for fuel exhaustion. -/
inductive CErr where
  | incompatibleType
  | incompatibleArraySize
  | arrayIndexErr
  | arrayDimOOB
  | ifCondType
  | whileCondType
  | functionReturn
  | additiveExpr
  | arithmeticExpr
  | divisionExpr
  | equalityOps
  | comparisonOps
  | logicalType
  | emptyArray
  | arrayElementType
  | callNumericIdentifier
  | unexpectedArgType
  | arrayAccessAssign
  | arrayDimAccess
  | assignNoReturn
  | voidValue
  | duplicateIdentifier (n : String)
  | undefinedIdentifier (n : String)
  | callUndefinedFunction (n : String)
  | shadowing (n : String)
  | caseStyle (n : String)
  | returnOfNoType
  | noReturn (n : String)
  | unmatchedArgs (n : String)
  | mainMissing
  | mainNotLast
  | multipleReturns
  | structureOther (msg : String)
  | checkerCrash (msg : String)
  | cOutOfFuel
deriving DecidableEq

/-- The kind of each static error, following the class hierarchy of
`semantics_checker.py` (`TypeError_`, `ScopeError`, `CaseError`,
`StructureError`). -/
def CErr.kind : CErr → CKind
  | .duplicateIdentifier _ => .scopeK
  | .undefinedIdentifier _ => .scopeK
  | .callUndefinedFunction _ => .scopeK
  | .shadowing _ => .scopeK
  | .caseStyle _ => .caseK
  | .returnOfNoType => .structureK
  | .noReturn _ => .structureK
  | .unmatchedArgs _ => .structureK
  | .mainMissing => .structureK
  | .mainNotLast => .structureK
  | .multipleReturns => .structureK
  | .structureOther _ => .structureK
  | .checkerCrash _ => .crashK
  | .cOutOfFuel => .fuelK
  | _ => .typeK

/-- Function signature record (`FunctionSig`); `return_type` is an
`Option String` because the republished (inferred) type mirrors whatever the
return visitor produced, which in Python may be `None`. -/
structure FunctionSig where
  parameters : List String
  return_type : Option String
  body : Node

/-- Checker state: scope map, function registry, expected return type of the
enclosing function, identifier style, top-level definition order, the
expression-statement flag and the returns seen in the current function. -/
structure CState where
  variable_map : List (String × String) := []
  function_map : List (String × FunctionSig) := []
  current_return_type : Option String := Option.none
  case_style : String := "camelCase"
  function_order : List String := []
  in_expr_stmt : Bool := false
  seen_returns : List (Option String) := []

/-- `.children` for the checker (AttributeError on a `Token`). -/
def cChildren : Node → Except CErr (List Node)
  | .tree _ cs => .ok cs
  | .token _ _ => .error (.checkerCrash "children on Token")

/-- `.value` for the checker (AttributeError on a `Tree`). -/
def cValue : Node → Except CErr String
  | .token _ v => .ok v
  | .tree _ _ => .error (.checkerCrash "value on Tree")

/-- List access inside the checker (Python `IndexError`). -/
def cListGet (l : List Node) (n : Nat) : Except CErr Node :=
  match l.get? n with
  | some x => .ok x
  | Option.none => .error (.checkerCrash "IndexError")

/-- `"[]" * n`. -/
def sqBrackets : Nat → String
  | 0 => ""
  | n + 1 => sqBrackets n ++ "[]"

/-- `full_type.count("[]")` (non-overlapping occurrences). -/
def countSq (s : String) : Nat := go s.toList
where
  go : List Char → Nat
    | '[' :: ']' :: rest => 1 + go rest
    | _ :: rest => go rest
    | [] => 0

/-- `full_type.rstrip("[]")`: strip the characters `[` and `]` from the
right. -/
def rstripSq (s : String) : String :=
  String.mk ((s.toList.reverse.dropWhile (fun c => c = '[' ∨ c = ']')).reverse)

/-- `type.endswith("[]")`, written over the character list so that it
computes by kernel reduction. -/
def endsWithSq (s : String) : Bool :=
  match s.toList.reverse with
  | ']' :: '[' :: _ => true
  | _ => false

/-- Drop a trailing `"[]"` (the checker's `current_type[:-2]`). -/
def dropSq (s : String) : String :=
  String.mk ((s.toList.reverse.drop 2).reverse)

/-- The stripping loop of `SemanticsChecker.compatible`, on the reversed
character list of `actual`. -/
def compatStrip (expected : Option String) : List Char → Bool
  | ']' :: '[' :: rest =>
      if some (String.mk rest.reverse) = expected then true
      else compatStrip expected rest
  | _ => false

/-- `SemanticsChecker.compatible`: `noType` expectations accept anything;
otherwise equality, or equality after stripping array suffixes from the
actual type. -/
def compatible (actual expected : Option String) : Except CErr Bool :=
  if expected = some "noType" then .ok true
  else if actual = expected then .ok true
  else match actual with
    | Option.none => .error (.checkerCrash "endswith on None")
    | some s => .ok (compatStrip expected s.toList.reverse)

/-- `SemanticsChecker.check_case`. -/
def check_case (style name : String) : Except CErr Unit :=
  if style = "camelCase" then
    if name.toList.contains '_' then .error (.caseStyle name)
    else match name.toList with
      | [] => .error (.checkerCrash "string index out of range")
      | c :: _ => if ¬ c.isLower then .error (.caseStyle name) else .ok ()
  else
    if name.toList.any Char.isUpper then .error (.caseStyle name) else .ok ()

/-- `SemanticsChecker.shadow_check`. -/
def shadow_check (st : CState) (name : String) : Except CErr Unit :=
  if (dictGet st.variable_map name).isSome then .error (.shadowing name)
  else if (dictGet st.function_map name).isSome then .error (.shadowing name)
  else .ok ()

/-- `SemanticsChecker.is_input_expr`. -/
def is_input_expr : Node → Bool
  | .tree "input_expr" _ => true
  | _ => false

/-- The scanning loop of `SemanticsChecker.collect_sizes` over the children
after the start index. -/
def collectSizesGo : List Node → Nat → Except CErr (List (Option Int) × Nat)
  | [], i => .ok ([], i)
  | c :: rest, i =>
      match c with
      | .tree "array_suffix" ccs =>
          (match ccs with
          | [] => .error (.checkerCrash "IndexError")
          | t :: _ =>
              match t with
              | .token tt tv => do
                  let v : Option Int ←
                    if tt = "INT" then
                      match Env.parsePyInt tv with
                      | some k => .ok (some k)
                      | Option.none => .error (.checkerCrash "int()")
                    else .ok Option.none
                  let (restS, j) ← collectSizesGo rest (i + 1)
                  .ok (v :: restS, j)
              | .tree _ _ => .error (.checkerCrash "type on Tree"))
      | _ => .ok ([], i)

/-- `SemanticsChecker.collect_sizes`. -/
def collect_sizes (children : List Node) (start : Nat) :
    Except CErr (List (Option Int) × Nat) :=
  collectSizesGo (children.drop start) start

/-- `SemanticsChecker.post_checks`: exactly one `main`, and it must be the
last top-level definition. -/
def post_checks (order : List String) : Except CErr Unit :=
  if ¬ (order.count "main" = 1) then .error .mainMissing
  else if ¬ (order ≠ [] ∧ order.getLast? = some "main") then .error .mainNotLast
  else .ok ()

mutual
/-- `SemanticsChecker.body_guarantees_return`: true when every terminating
control path ends in a return statement — a block delegates to its first
guaranteeing statement, both branches of an if/else must guarantee, a while
never counts. -/
def body_guarantees_return : Node → Bool
  | .token _ _ => false
  | .tree d cs =>
      if d = "return_stmt" then true
      else if d = "block" then bgrList cs
      else if d = "if_stmt" then
        match cs with
        | [_, t, e] => body_guarantees_return t && body_guarantees_return e
        | _ => false
      else false

def bgrList : List Node → Bool
  | [] => false
  | c :: rest => body_guarantees_return c || bgrList rest
end

mutual
/-- Modelled from the spec: "every execution path through its body ends in a
return statement".  `canFallThrough n` holds when some execution path through
the statement `n` terminates without having executed a return: any
non-control statement falls through, a block falls through when every
statement in it can, an if without an else (or a while, by running zero
iterations) can always be skipped, and an if/else falls through when either
branch can. -/
def canFallThrough : Node → Bool
  | .token _ _ => true
  | .tree d cs =>
      if d = "return_stmt" then false
      else if d = "block" then cftList cs
      else if d = "if_stmt" then
        match cs with
        | [_, t, e] => canFallThrough t || canFallThrough e
        | _ => true
      else true

def cftList : List Node → Bool
  | [] => true
  | c :: rest => canFallThrough c && cftList rest
end

mutual
/-- `SemanticsChecker.check_single_return`: at most one direct return per
block, recursively through if/while/nested blocks (fuel-indexed so that it
computes by kernel reduction; the recursion is structurally bounded by the
tree, so any fuel at least the tree height suffices). -/
def check_single_return (fuel : Nat) (n : Node) : Except CErr Unit :=
  match fuel with
  | 0 => .error .cOutOfFuel
  | fuel + 1 =>
    match n with
    | .token _ _ => .ok ()
    | .tree d cs =>
        if d = "block" then
          if (cs.filter (fun c => match c with
                | .tree "return_stmt" _ => true
                | _ => false)).length > 1 then .error .multipleReturns
          else checkSingleList fuel cs
        else .ok ()
termination_by structural fuel

def checkSingleList (fuel : Nat) (l : List Node) : Except CErr Unit :=
  match fuel with
  | 0 => .error .cOutOfFuel
  | fuel + 1 =>
    match l with
    | [] => .ok ()
    | (.tree "if_stmt" ccs) :: rest => do
        (match ccs with
         | _ :: c1 :: rest2 => do
             check_single_return fuel c1
             (match rest2 with
              | [c2] => check_single_return fuel c2
              | _ => .ok ())
         | _ => .error (.checkerCrash "IndexError"))
        checkSingleList fuel rest
    | (.tree "while_stmt" ccs) :: rest => do
        (match ccs with
         | _ :: c1 :: _ => check_single_return fuel c1
         | _ => .error (.checkerCrash "IndexError"))
        checkSingleList fuel rest
    | (.tree "block" bcs) :: rest => do
        check_single_return fuel (.tree "block" bcs)
        checkSingleList fuel rest
    | _ :: rest => checkSingleList fuel rest
termination_by structural fuel
end

/-- The parameter-collection loop of `visit_function_definition`: read each
parameter's type and name, enforce case style and no-shadowing, accumulate
names and types in order. -/
def collectParamsGo (st : CState) : List Node → Except CErr (List String × List String)
  | [] => .ok ([], [])
  | p :: rest => do
      let pcs ← cChildren p
      let t0 ← cListGet pcs 0
      let t ← cValue t0
      let i1 ← cListGet pcs 1
      let i ← cValue i1
      check_case st.case_style i
      shadow_check st i
      let (ns, ts) ← collectParamsGo st rest
      .ok (i :: ns, t :: ts)

/-- `dict(zip(names, types))`: zip truncates to the shorter list, later
duplicates overwrite earlier ones. -/
def dictOfZip (names types : List String) : List (String × String) :=
  (names.zip types).foldl (fun d p => dictSet d p.1 p.2) []

/-- The argument/parameter zip check of `visit_postfix_expr`: each argument
type must equal the declared parameter type or be `noType`. -/
def checkArgZip : List (Option String) → List String → Except CErr Unit
  | a :: as', e :: es' =>
      if a ≠ some e ∧ a ≠ some "noType" then .error .unexpectedArgType
      else checkArgZip as' es'
  | _, _ => .ok ()

/-- `range(0, len, 2)` selection: every other child, starting at index 0. -/
def everyOther : List Node → List Node
  | [] => []
  | [a] => [a]
  | a :: _ :: rest => a :: everyOther rest

mutual

/-- `SemanticsChecker.visit`: dispatch on the node; rules without a visitor
recurse generically (`default`).  Returns the node's static type (Python
`None` for statements) and the updated checker state. -/
def checkVisit (fuel : Nat) (st : CState) (node : Node) :
    Except CErr (Option String × CState) :=
  match fuel with
  | 0 => .error .cOutOfFuel
  | fuel + 1 =>
    match node with
    | .token ttype v =>
        if ttype = "INT" then .ok (some "integer", st)
        else if ttype = "FLOAT" then .ok (some "decimal", st)
        else if ttype = "BOOLEAN" then .ok (some "boolean", st)
        else if ttype = "STRING" then .ok (some "string", st)
        else if ttype = "ID" then
          match dictGet st.variable_map v with
          | Option.none => .error (.undefinedIdentifier v)
          | some t => .ok (some t, st)
        else .ok (Option.none, st)
    | .tree data cs =>
        if data = "syntax" then do
          let c1 ← cListGet cs 1
          let v ← cValue c1
          .ok (Option.none, { st with case_style := v })
        else if data = "start" then do
          let st1 ← checkSeq fuel st cs
          .ok (Option.none, st1)
        else if data = "block" then do
          let st1 ← checkSeq fuel st cs
          .ok (Option.none, st1)
        else if data = "function_definition" then do
          let c0 ← cListGet cs 0
          let rt ← cValue c0
          let nameN ← cListGet cs 1
          let fname ← cValue nameN
          let paramsNode := cs.find? (fun c => match c with
            | .tree "params" _ => true
            | _ => false)
          let body ← cListGet cs (cs.length - 1)
          if (dictGet st.function_map fname).isSome then
            .error (.duplicateIdentifier fname)
          else do
            let st := { st with function_order := st.function_order ++ [fname] }
            let (pnames, ptypes) ← (match paramsNode with
              | some p => do
                  let pcs ← cChildren p
                  collectParamsGo st pcs
              | Option.none => .ok (([] : List String), ([] : List String)))
            let st := { st with
              function_map := dictSet st.function_map fname ⟨ptypes, some rt, body⟩ }
            let outer_vars := st.variable_map
            let outer_rt := st.current_return_type
            let st := { st with
              variable_map := dictOfZip pnames ptypes
              current_return_type := some rt
              seen_returns := [] }
            let (_, st1) ← checkVisit fuel st body
            let st2 := (match st1.seen_returns with
              | [] => st1
              | h :: t =>
                  if (h :: t).all (fun x => x = h) then
                    { st1 with function_map :=
                        (match dictGet st1.function_map fname with
                         | some sig =>
                             dictSet st1.function_map fname
                               { sig with return_type := h }
                         | Option.none => st1.function_map) }
                  else st1)
            if rt ≠ "noType" ∧ body_guarantees_return body = false then
              .error (.noReturn fname)
            else do
              let st3 := { st2 with
                variable_map := outer_vars
                current_return_type := outer_rt }
              check_single_return fuel body
              .ok (Option.none, st3)
        else if data = "declaration_stmt" then do
          let c0 ← cListGet cs 0
          let base ← cValue c0
          let c1 ← cListGet cs 1
          let name ← cValue c1
          let (sizes, idx) ← collect_sizes cs 2
          check_case st.case_style name
          shadow_check st name
          let declared := base ++ sqBrackets sizes.length
          let rhsOpt ← (match cs.get? idx with
            | Option.none => .ok (Option.none : Option Node)
            | some child =>
                if nodeIsStr child "=" then do
                  let r ← cListGet cs (idx + 1)
                  .ok (some r)
                else .ok (some child))
          match rhsOpt with
          | Option.none =>
              .ok (Option.none,
                { st with variable_map := dictSet st.variable_map name declared })
          | some rhs => do
              let (rt, st1) ← checkVisit fuel st rhs
              if rt = some "noType" ∧ is_input_expr rhs = false then
                .error .assignNoReturn
              else if rt ≠ some declared ∧ rt ≠ some "noType" then
                .error .incompatibleType
              else do
                (if sizes.isEmpty = false ∧ (match rhs with
                      | .tree "array_literal" _ => true
                      | _ => false) = true then do
                    let rcs ← cChildren rhs
                    let r0 ← cListGet rcs 0
                    let r0cs ← cChildren r0
                    let elems := r0cs.filter (fun c => !(nodeIsStr c ","))
                    match sizes.head? with
                    | some (some k) =>
                        if (elems.length : Int) ≠ k then .error .incompatibleArraySize
                        else .ok ()
                    | some Option.none => .error .incompatibleArraySize
                    | Option.none => .ok ()
                 else .ok ())
                .ok (Option.none,
                  { st1 with variable_map := dictSet st1.variable_map name declared })
        else if data = "assignment_stmt" then do
          let lv ← cListGet cs 0
          let rhsN ← cListGet cs (cs.length - 1)
          let lcs ← cChildren lv
          let n0 ← cListGet lcs 0
          let name ← cValue n0
          match dictGet st.variable_map name with
          | Option.none => .error (.undefinedIdentifier name)
          | some full => do
              let dims := countSq full
              let base := rstripSq full
              let indices := (lcs.drop 1).filter (fun c => match c with
                | .tree "array_access_suffix" _ => true
                | _ => false)
              let st1 ← checkIdxList fuel st indices
              if indices.length > dims then .error .arrayDimOOB
              else do
                let (rt, st2) ← checkVisit fuel st1 rhsN
                let remaining := dims - indices.length
                let expected := if remaining = 0 then base
                  else base ++ sqBrackets remaining
                if rt ≠ some expected ∧ rt ≠ some "noType" then
                  .error .incompatibleType
                else .ok (Option.none, st2)
        else if data = "if_stmt" then do
          let c0 ← cListGet cs 0
          let (t, st1) ← checkVisit fuel st c0
          if t ≠ some "boolean" then
            (match c0 with
             | .token _ _ => .error (.checkerCrash "data on Token")
             | .tree _ _ => .error .ifCondType)
          else do
            let c1 ← cListGet cs 1
            let (_, st2) ← checkVisit fuel st1 c1
            if cs.length = 3 then do
              let c2 ← cListGet cs 2
              let (_, st3) ← checkVisit fuel st2 c2
              .ok (Option.none, st3)
            else .ok (Option.none, st2)
        else if data = "while_stmt" then do
          let c0 ← cListGet cs 0
          let (t, st1) ← checkVisit fuel st c0
          if t ≠ some "boolean" then
            (match c0 with
             | .token _ _ => .error (.checkerCrash "data on Token")
             | .tree _ _ => .error .whileCondType)
          else do
            let c1 ← cListGet cs 1
            let (_, st2) ← checkVisit fuel st1 c1
            .ok (Option.none, st2)
        else if data = "return_stmt" then
          if st.current_return_type = some "noType" then
            match cs with
            | [] => .ok (Option.none, st)
            | c0 :: _ => do
                let _ ← cValue c0
                .error .returnOfNoType
          else do
            let c0 ← cListGet cs 0
            let (actual, st1) ← checkVisit fuel st c0
            let b ← compatible actual st1.current_return_type
            if ¬ b then .error .functionReturn
            else .ok (Option.none,
              { st1 with seen_returns := st1.seen_returns ++ [actual] })
        else if data = "expr_stmt" then do
          let prev := st.in_expr_stmt
          let c0 ← cListGet cs 0
          let (_, st1) ← checkVisit fuel { st with in_expr_stmt := true } c0
          .ok (Option.none, { st1 with in_expr_stmt := prev })
        else if data = "arit_expr" then do
          let c0 ← cListGet cs 0
          let (lt, st1) ← checkVisit fuel st c0
          if cs.length ≠ 3 then .ok (lt, st1)
          else do
            let opN ← cListGet cs 1
            let c2 ← cListGet cs 2
            let (rt, st2) ← checkVisit fuel st1 c2
            let op ← cValue opN
            if op = "+" then
              if lt ≠ rt ∨ ¬ (lt = some "integer" ∨ lt = some "decimal" ∨
                  lt = some "string") then .error .additiveExpr
              else .ok (lt, st2)
            else if op = "-" ∨ op = "*" ∨ op = "%" then
              if lt ≠ rt ∨ ¬ (lt = some "integer" ∨ lt = some "decimal") then
                .error .arithmeticExpr
              else .ok (lt, st2)
            else if op = "/" then
              if lt ≠ rt ∨ ¬ (lt = some "integer" ∨ lt = some "decimal") then
                .error .divisionExpr
              else .ok (some "decimal", st2)
            else .error (.structureOther "default")
        else if data = "compare_expr" then do
          let c0 ← cListGet cs 0
          let (lt, st1) ← checkVisit fuel st c0
          let opN ← cListGet cs 1
          let op ← cValue opN
          let c2 ← cListGet cs 2
          let (rt, st2) ← checkVisit fuel st1 c2
          if op = "==" ∨ op = "!=" then
            if lt ≠ rt then .error .equalityOps
            else .ok (some "boolean", st2)
          else
            if lt ≠ rt ∨ ¬ (lt = some "integer" ∨ lt = some "decimal") then
              .error .comparisonOps
            else .ok (some "boolean", st2)
        else if data = "logical_expr" then do
          let st1 ← checkBoolList fuel st (everyOther cs)
          .ok (some "boolean", st1)
        else if data = "array_literal" then
          match cs with
          | [] => .error .emptyArray
          | c0 :: _ => do
              let ccs ← cChildren c0
              let elems := ccs.filter (fun c => !(nodeIsStr c ","))
              let (types, st1) ← checkTypeList fuel st elems
              match types with
              | [] => .error (.checkerCrash "IndexError")
              | t0 :: _ =>
                  if types.any (fun t => t ≠ t0) then .error .arrayElementType
                  else match t0 with
                    | some s => .ok (some (s ++ "[]"), st1)
                    | Option.none => .error (.checkerCrash "None + str")
        else if data = "postfix_expr" then do
          let primary ← cListGet cs 0
          let idTok : Option String := (match primary with
            | .token "ID" v => some v
            | _ => Option.none)
          let (cur, st1) ← checkSuffixes fuel st (cs.drop 1) primary idTok
              Option.none
          let (cur2, st2) ← (match cur with
            | Option.none => checkVisit fuel st1 primary
            | some c => .ok (some c, st1))
          if cur2 = some "noType" ∧ st2.in_expr_stmt = false then
            .error .voidValue
          else .ok (cur2, st2)
        else if data = "input_expr" then
          .ok (some "noType", st)
        else do
          let st1 ← checkSeq fuel st cs
          .ok (Option.none, st1)

termination_by structural fuel
/-- The generic `default` walk: visit children in order, drop their types. -/
def checkSeq (fuel : Nat) (st : CState) (nodes : List Node) :
    Except CErr CState :=
  match fuel with
  | 0 => .error .cOutOfFuel
  | fuel + 1 =>
    match nodes with
    | [] => .ok st
    | c :: rest => do
        let (_, st1) ← checkVisit fuel st c
        checkSeq fuel st1 rest

termination_by structural fuel
/-- Visit a list of nodes, collecting their types in order. -/
def checkTypeList (fuel : Nat) (st : CState) (nodes : List Node) :
    Except CErr (List (Option String) × CState) :=
  match fuel with
  | 0 => .error .cOutOfFuel
  | fuel + 1 =>
    match nodes with
    | [] => .ok ([], st)
    | c :: rest => do
        let (t, st1) ← checkVisit fuel st c
        let (ts, st2) ← checkTypeList fuel st1 rest
        .ok (t :: ts, st2)

termination_by structural fuel
/-- The operand loop of `visit_logical_expr`: every visited operand must be
boolean. -/
def checkBoolList (fuel : Nat) (st : CState) (nodes : List Node) :
    Except CErr CState :=
  match fuel with
  | 0 => .error .cOutOfFuel
  | fuel + 1 =>
    match nodes with
    | [] => .ok st
    | c :: rest => do
        let (t, st1) ← checkVisit fuel st c
        if t ≠ some "boolean" then .error .logicalType
        else checkBoolList fuel st1 rest

termination_by structural fuel
/-- The index-suffix loop of `visit_assignment_stmt`: each index expression
must be integer-typed. -/
def checkIdxList (fuel : Nat) (st : CState) (suffixes : List Node) :
    Except CErr CState :=
  match fuel with
  | 0 => .error .cOutOfFuel
  | fuel + 1 =>
    match suffixes with
    | [] => .ok st
    | sfx :: rest => do
        let scs ← cChildren sfx
        let i0 ← cListGet scs 0
        let (t, st1) ← checkVisit fuel st i0
        if t ≠ some "integer" then
          (match i0 with
           | .token _ _ => .error .arrayIndexErr
           | .tree _ _ => .error (.checkerCrash "value on Tree"))
        else checkIdxList fuel st1 rest

termination_by structural fuel
/-- The suffix loop of `visit_postfix_expr`: a call suffix checks the
argument list against the (current) published signature and continues with
its return type; an index suffix requires an array type and an integer index
and peels one rank. -/
def checkSuffixes (fuel : Nat) (st : CState) (suffixes : List Node)
    (primary : Node) (idTok : Option String) (cur : Option String) :
    Except CErr (Option String × CState) :=
  match fuel with
  | 0 => .error .cOutOfFuel
  | fuel + 1 =>
    match suffixes with
    | [] => .ok (cur, st)
    | sfx :: rest =>
        match sfx with
        | .token _ _ => .error (.checkerCrash "data on Token")
        | .tree sd scs =>
            if sd = "call_suffix" then do
              let fname ← (match idTok with
                | Option.none => .error CErr.callNumericIdentifier
                | some f => .ok f)
              let sig ← (match dictGet st.function_map fname with
                | Option.none => .error (CErr.callUndefinedFunction fname)
                | some s => .ok s)
              let raw ← (if scs.isEmpty = false then do
                  let a0 ← cListGet scs 0
                  cChildren a0
                else .ok [])
              let argNodes := raw.filter (fun c => !(nodeIsStr c ","))
              let (argTypes, st1) ← checkTypeList fuel st argNodes
              if argTypes.length ≠ sig.parameters.length then
                .error (.unmatchedArgs fname)
              else do
                checkArgZip argTypes sig.parameters
                checkSuffixes fuel st1 rest primary Option.none sig.return_type
            else if sd = "array_access_suffix" then do
              let (cur1, st1) ← (match cur with
                | Option.none => checkVisit fuel st primary
                | some c => .ok (some c, st))
              match cur1 with
              | Option.none => .error (.checkerCrash "endswith on None")
              | some s =>
                  if endsWithSq s = false then .error .arrayDimAccess
                  else do
                    let i0 ← cListGet scs 0
                    let (it, st2) ← checkVisit fuel st1 i0
                    if it ≠ some "integer" then .error .arrayAccessAssign
                    else checkSuffixes fuel st2 rest primary idTok (some (dropSq s))
            else .error (.structureOther "unexpected postfix suffix")

termination_by structural fuel
end

/-- `SemanticsChecker.run`: one whole-program pass followed by the global
main-function checks. -/
def checkRun (fuel : Nat) (t : Node) : Except CErr Unit := do
  let (_, st) ← checkVisit fuel {} t
  post_checks st.function_order

/-! ### Concrete programs and stores used by the claim theorems -/

/-- The return-guarantee gate of `visit_function_definition` (semantics
checker lines 277-280): a function whose declared return type is not
`noType` must have `body_guarantees_return`. -/
def returnGuaranteeCheck (fname rt : String) (body : Node) : Except CErr Unit :=
  if rt ≠ "noType" ∧ body_guarantees_return body = false then
    .error (.noReturn fname)
  else .ok ()

/-- `return 1`. -/
def c3Ret : Node := .tree "return_stmt" [.token "INT" "1"]

/-- A body whose if/else returns in both branches. -/
def c3IfElse : Node := .tree "block" [.tree "if_stmt" [.token "BOOLEAN" "true",
  .tree "block" [c3Ret], .tree "block" [c3Ret]]]

/-- The same body with the else branch removed. -/
def c3NoElse : Node := .tree "block" [.tree "if_stmt" [.token "BOOLEAN" "true",
  .tree "block" [c3Ret]]]

/-- The same body with the return removed from one branch. -/
def c3OneRet : Node := .tree "block" [.tree "if_stmt" [.token "BOOLEAN" "true",
  .tree "block" [c3Ret], .tree "block" []]]

/-- A body whose only return sits inside a while loop. -/
def c3While : Node := .tree "block" [.tree "while_stmt" [.token "BOOLEAN" "true",
  .tree "block" [c3Ret]]]

/-- A minimal void function definition named `nm`. -/
def c4Fn (nm : String) : Node := .tree "function_definition"
  [.token "TYPE" "noType", .token "ID" nm, .tree "block" []]

/-- Two functions both named `main`. -/
def c4TwoMain : Node := .tree "start" [c4Fn "main", c4Fn "main"]

/-- A program with no `main`. -/
def c4Omit : Node := .tree "start" [c4Fn "f"]

/-- `main` defined first instead of last. -/
def c4NotLast : Node := .tree "start" [c4Fn "main", c4Fn "f"]

/-- A well-placed `main`, declared last. -/
def c4Ok : Node := .tree "start" [c4Fn "f", c4Fn "main"]

/-- `integer f() { return [1, 2] }`: declared scalar `integer`, the checker
infers the return type `integer[]` from the literal and republishes the
signature. -/
def c1FDef : Node := .tree "function_definition" [.token "TYPE" "integer",
  .token "ID" "f",
  .tree "block" [.tree "return_stmt" [
    .tree "array_literal" [.tree "args" [.token "INT" "1", .token "INT" "2"]]]]]

/-- `main` declaring `integer x[2] = f()`. -/
def c1MainDef : Node := .tree "function_definition" [.token "TYPE" "noType",
  .token "ID" "main",
  .tree "block" [
    .tree "declaration_stmt" [.token "TYPE" "integer", .token "ID" "x",
      .tree "array_suffix" [.token "INT" "2"],
      .tree "postfix_expr" [.token "ID" "f", .tree "call_suffix" []]]]]

/-- The whole program: the checker accepts it, the interpreter raises a
runtime type error on `x`'s declaration. -/
def c1Prog : Node := .tree "start" [c1FDef, c1MainDef]

/-- A block whose first statement is the bare expression statement `5;`,
followed by an output statement. -/
def c5Block : Node := .tree "block" [.tree "expr_stmt" [.token "INT" "5"],
  .tree "output_stmt" [.token "INT" "7"]]

/-- `{ return 5 }`: the body of the called function `f`. -/
def c2FBlock : Node := .tree "block" [.tree "return_stmt" [.token "INT" "5"]]

/-- A caller environment with one local `z` and one parameterless function
`f` whose body returns `5`. -/
def c2Env : Env.Environment :=
  ⟨[("z", ⟨.int 9, "integer", .list []⟩)],
   [("f", ⟨"integer", c2FBlock, Option.none⟩)]⟩

/-- The call expression `f()`. -/
def c2Call : Node := .tree "postfix_expr" [.token "ID" "f", .tree "call_suffix" []]

/-- A parameter list `(integer a, integer b)`. -/
def c2GParams : Node := .tree "params"
  [.tree "param" [.token "TYPE" "integer", .token "ID" "a"],
   .tree "param" [.token "TYPE" "integer", .token "ID" "b"]]

/-- An environment holding a two-parameter function `g`. -/
def c2GEnv : Env.Environment :=
  ⟨[], [("g", ⟨"noType", .tree "block" [], some c2GParams⟩)]⟩

/-- The call expression `g(1, 2)`. -/
def c2GCall : Node := .tree "postfix_expr" [.token "ID" "g",
  .tree "call_suffix" [.tree "args" [.token "INT" "1", .token "INT" "2"]]]

/-- The callee frame after binding `g`'s two parameters to `1` and `2`:
both declared `integer`, the function table shared with the caller. -/
def c2GFrame : Env.Environment :=
  ⟨[("a", ⟨.int 1, "integer", .list []⟩), ("b", ⟨.int 2, "integer", .list []⟩)],
   c2GEnv.functions⟩

deriving instance DecidableEq for Except

/-- The concrete `integer[3]` store of the claim: `x` declared with base type
`integer` and sizes `[3]`. -/
def c6Env : Env.Environment :=
  ⟨[("x", ⟨.list [.none, .none, .none], "integer", .list [.int 3]⟩)], []⟩

/-! ### Lemmas about the environment operations -/

theorem pyListGet_single (a : PyVal) : pyListGet [a] 0 = .ok a := rfl

/-- One-dimensional `get_variable` walk: guard against the declared size,
then a Python subscript. -/
theorem get_walk_one (l : List PyVal) (N idx : Int) :
    Env.get_walk (.list l) (.list [.int N]) [.int idx] 0 =
      if N ≤ idx then .error (.indexRange idx N) else pyListGet l idx := by
  simp only [Env.get_walk, pyGetItem, PyVal.asIndex, pyGe, PyVal.asNum,
    Bind.bind, Except.bind]
  norm_num [Except.toOption, pyListGet_single]
  rcases le_or_lt N idx with h | h
  · simp [h]
  · rw [if_neg (not_le.mpr h), if_neg (not_le.mpr h)]
    split <;> simp_all

/-- One-dimensional `set_variable` walk for an integer scalar: guard against
the declared size, then a Python list assignment. -/
theorem set_walk_one_int (l : List PyVal) (N idx k : Int) :
    Env.set_walk (.list l) (.list [.int N]) [.int idx] 0 1 (.int k) "integer" =
      if N ≤ idx then .error (.setIndexOutOfRange idx)
      else match pyListSet l idx (.int k) with
        | .ok l' => .ok (.list l')
        | .error e => .error e := by
  simp only [Env.set_walk, pyGetItem, PyVal.asIndex, pyGe, PyVal.asNum,
    Env.coerce_scalar, Bind.bind, Except.bind]
  norm_num [Except.toOption, pyListGet_single]
  rcases le_or_lt N idx with h | h
  · simp [h]
  · simp only [if_neg (not_le.mpr h)]
    split <;> simp_all

/-- A negative in-range Python subscript resolves from the end. -/
theorem pyListGet_neg (l : List PyVal) (idx : Int)
    (h1 : -(l.length : Int) ≤ idx) (h2 : idx < 0) :
    pyListGet l idx = .ok (l.getD (idx + l.length).toNat .none) := by
  have h3 : ¬ (0 ≤ idx) := not_le.mpr h2
  simp only [pyListGet, h3, if_false]
  have hb : (0 : Int) ≤ idx + l.length ∧ idx + (l.length : Int) < l.length := by omega
  rw [dif_pos hb]
  congr 1
  have hlt : (idx + (l.length : Int)).toNat < l.length := by omega
  rw [List.getD_eq_getElem l _ hlt]
  simp

/-- A nonnegative in-range Python subscript is plain indexing. -/
theorem pyListGet_pos (l : List PyVal) (idx : Int)
    (h1 : 0 ≤ idx) (h2 : idx < (l.length : Int)) :
    pyListGet l idx = .ok (l.getD idx.toNat .none) := by
  simp only [pyListGet, h1, if_true, true_and]
  rw [dif_pos h2]
  congr 1
  have hlt : idx.toNat < l.length := by omega
  rw [List.getD_eq_getElem l _ hlt]
  simp

/-- A negative in-range Python list assignment resolves from the end. -/
theorem pyListSet_neg (l : List PyVal) (idx k : Int)
    (h1 : -(l.length : Int) ≤ idx) (h2 : idx < 0) :
    pyListSet l idx (.int k) = .ok (l.set (idx + l.length).toNat (.int k)) := by
  have h3 : ¬ (0 ≤ idx) := not_le.mpr h2
  simp only [pyListSet, h3, if_false]
  rw [if_pos (show (0 : Int) ≤ idx + l.length ∧ idx + (l.length : Int) < l.length by omega)]

/-- `pyListSet` can only fail with a raw Python `IndexError`. -/
theorem pyListSet_error (l : List PyVal) (i : Int) (v : PyVal) (e : RErr)
    (h : pyListSet l i v = .error e) : e = .pyIndexError := by
  simp only [pyListSet] at h
  split at h <;> split at h <;> simp_all

/-- C9: for an array variable declared with size `n` in the indexed
dimension, `get_variable` and `set_variable` reject an index with
`IndexRangeError` (resp. the out-of-range `IndexError`) exactly when
`idx >= n`; every negative index with absolute value at most `n` is accepted
and resolves Python-style from the end of the dimension, and nonnegative
in-range indices resolve normally. -/
theorem c9_negative_index_resolution
    (env : Env.Environment) (x ty : String) (l : List PyVal) (k : Int)
    (entry : Env.VarEntry)
    (he : entry = ⟨.list l, ty, .list [.int (l.length : Int)]⟩)
    (hx : dictGet env.vars x = some entry) :
    (∀ idx : Int,
        Env.get_variable env x (some [.int idx]) =
            .error (.indexRange idx (l.length : Int)) ↔ (l.length : Int) ≤ idx) ∧
    (∀ idx : Int, -(l.length : Int) ≤ idx → idx < 0 →
        Env.get_variable env x (some [.int idx]) =
          .ok (l.getD (idx + l.length).toNat .none)) ∧
    (∀ idx : Int, 0 ≤ idx → idx < (l.length : Int) →
        Env.get_variable env x (some [.int idx]) = .ok (l.getD idx.toNat .none)) ∧
    (ty = "integer" →
      (∀ idx : Int,
          Env.set_variable env x (.int k) (some [.int idx]) =
              .error (.setIndexOutOfRange idx) ↔ (l.length : Int) ≤ idx) ∧
      (∀ idx : Int, -(l.length : Int) ≤ idx → idx < 0 →
          Env.set_variable env x (.int k) (some [.int idx]) =
            .ok ⟨dictSet env.vars x
                   ⟨.list (l.set (idx + l.length).toNat (.int k)), ty,
                    .list [.int (l.length : Int)]⟩,
                 env.functions⟩)) := by
  subst he
  have hget : ∀ idx : Int, Env.get_variable env x (some [.int idx]) =
      if (l.length : Int) ≤ idx then .error (.indexRange idx (l.length : Int))
      else pyListGet l idx := by
    intro idx
    simp only [Env.get_variable, hx, pyLen, Bind.bind, Except.bind, List.length_cons,
      List.length_nil, get_walk_one]
    norm_num
  refine ⟨?_, ?_, ?_, ?_⟩
  · intro idx
    rw [hget]
    constructor
    · intro h
      by_contra hc
      rw [if_neg hc] at h
      simp only [pyListGet] at h
      split at h <;> split at h <;> simp_all
    · intro h
      rw [if_pos h]
  · intro idx h1 h2
    rw [hget, if_neg (by omega), pyListGet_neg l idx h1 h2]
  · intro idx h1 h2
    rw [hget, if_neg (by omega), pyListGet_pos l idx h1 h2]
  · intro hty
    subst hty
    have hset : ∀ idx : Int, Env.set_variable env x (.int k) (some [.int idx]) =
        if (l.length : Int) ≤ idx then .error (.setIndexOutOfRange idx)
        else match pyListSet l idx (.int k) with
          | .ok l2 => .ok ⟨dictSet env.vars x
              ⟨.list l2, "integer", .list [.int (l.length : Int)]⟩, env.functions⟩
          | .error e => .error e := by
      intro idx
      simp only [Env.set_variable, hx, Env.coerce_any, Env.coerce_scalar, pyLen,
        Bind.bind, Except.bind, List.length_cons, List.length_nil, set_walk_one_int]
      norm_num [set_walk_one_int]
      rcases le_or_lt (l.length : Int) idx with h | h
      · simp [h]
      · simp only [if_neg (not_le.mpr h)]
        cases hpl : pyListSet l idx (PyVal.int k) <;> simp_all
    constructor
    · intro idx
      rw [hset]
      constructor
      · intro h
        by_contra hc
        rw [if_neg hc] at h
        split at h
        · simp_all
        · rename_i e2 heq2
          have h3 := pyListSet_error l idx (.int k) e2 heq2
          simp_all
      · intro h
        rw [if_pos h]
    · intro idx h1 h2
      rw [hset, if_neg (by omega), pyListSet_neg l idx k h1 h2]

/-- Witness for C9: in a store where `a` is a 2-element integer array holding
`[7, 8]`, index `-1` resolves to the last element `8`, both for reading and
writing, and index `2` is rejected. -/
theorem c9_witness :
    Env.get_variable ⟨[("a", ⟨.list [.int 7, .int 8], "integer",
        .list [.int 2]⟩)], []⟩ "a" (some [.int (-1)]) = .ok (.int 8) ∧
    Env.set_variable ⟨[("a", ⟨.list [.int 7, .int 8], "integer",
        .list [.int 2]⟩)], []⟩ "a" (.int 5) (some [.int (-1)]) =
      .ok ⟨[("a", ⟨.list [.int 7, .int 5], "integer", .list [.int 2]⟩)], []⟩ ∧
    Env.get_variable ⟨[("a", ⟨.list [.int 7, .int 8], "integer",
        .list [.int 2]⟩)], []⟩ "a" (some [.int 2]) = .error (.indexRange 2 2) := by
  have h := c9_negative_index_resolution
    ⟨[("a", ⟨.list [.int 7, .int 8], "integer", .list [.int 2]⟩)], []⟩
    "a" "integer" [.int 7, .int 8] 5 _ rfl rfl
  refine ⟨?_, ?_, ?_⟩
  · have h2 := h.2.1 (-1) (by norm_num) (by norm_num)
    simpa using h2
  · have h2 := (h.2.2.2 rfl).2 (-1) (by norm_num) (by norm_num)
    simpa using h2
  · exact (h.1 2).mpr (by norm_num)

/-- C10: `coerce_scalar` on a string with a boolean-typed target returns
`true` exactly for the strings `"true"` and `"sand"`, `false` exactly for
`"false"` and `"falsk"` (the Danish spellings are accepted unconditionally:
the function has no dialect parameter at all), and raises `BooleanError` for
every other string. -/
theorem c10_boolean_string_coercion (s : String) :
    Env.coerce_scalar (.str s) "boolean" =
      (if s = "true" ∨ s = "sand" then .ok (.bool true)
       else if s = "false" ∨ s = "falsk" then .ok (.bool false)
       else .error (.booleanError s)) := rfl

/-- The reduction of whole-variable assignment (`set_variable` with no
indices): coerce first, then the dimension-count check, then the shape check. -/
theorem set_variable_whole_eq (env : Env.Environment) (x : String)
    (v0 : PyVal) (ty0 : String) (sz0 : PyVal) (value : PyVal)
    (hx : dictGet env.vars x = some ⟨v0, ty0, sz0⟩) :
    Env.set_variable env x value Option.none =
      (match Env.coerce_any value ty0 with
      | .error e => .error e
      | .ok v' =>
        match pyLen sz0 with
        | .error e => .error e
        | .ok lenS =>
          if Env.get_dimensions v' ≠ lenS then
            .error (.dimsMismatch lenS (Env.get_dimensions v'))
          else if sz0.truthy then
            match Env.shape_matches v' sz0 with
            | .error e => .error e
            | .ok b =>
                if ¬ b then .error (.shapeMismatch x)
                else .ok ⟨dictSet env.vars x ⟨v', ty0, sz0⟩, env.functions⟩
          else .ok ⟨dictSet env.vars x ⟨v', ty0, sz0⟩, env.functions⟩) := by
  simp only [Env.set_variable, hx, Bind.bind, Except.bind]
  cases Env.coerce_any value ty0 with
  | error e => rfl
  | ok v' =>
    cases pyLen sz0 with
    | error e => rfl
    | ok lenS =>
      by_cases hd : Env.get_dimensions v' = lenS
      · simp only [hd, ne_eq, not_true_eq_false, if_false, ite_not]
        by_cases ht : sz0.truthy
        · simp only [ht, if_true]
          cases Env.shape_matches v' sz0 with
          | error e => simp
          | ok b => cases b <;> simp
        · simp only [ht, if_false]
          simp [Bool.false_eq_true]
      · simp [hd]

/-- C6 counterexample: whole-variable assignment can fail even though the
value's dimension count (0) equals the declared dimension count (0) and the
shape condition is vacuous — the value `"abc"` assigned to an
integer-declared scalar dies in coercion (`int("abc")`), so "succeeds iff
the dimension count and every dimension's length match" is false as stated. -/
theorem c6_counterexample :
    Env.set_variable ⟨[("x", ⟨.none, "integer", .list []⟩)], []⟩ "x" (.str "abc")
        Option.none = .error (.intParseError "abc") ∧
    Env.get_dimensions (.str "abc") = 0 ∧
    pyLen (PyVal.list []) = .ok 0 ∧
    (PyVal.list []).truthy = false :=
  ⟨rfl, rfl, rfl, rfl⟩

/-- C6 (amended): whole-variable assignment succeeds iff the coercion of the
value to the declared base type succeeds, the coerced value's dimension
count equals the declared dimension count, and (for arrays) every
dimension's length matches the declared size.  In particular, on a variable
declared `integer[3]`: a 3-element integer list succeeds, 2- and 4-element
lists fail with the shape error, and reading index 3 fails with
`IndexRangeError`. -/
theorem c6_whole_assignment_characterization :
    (∀ (env : Env.Environment) (x : String) (value : PyVal)
        (v0 : PyVal) (ty0 : String) (sz0 : PyVal),
        dictGet env.vars x = some ⟨v0, ty0, sz0⟩ →
        ((∃ env', Env.set_variable env x value Option.none = .ok env') ↔
          (∃ v' lenS, Env.coerce_any value ty0 = .ok v' ∧
             pyLen sz0 = .ok lenS ∧ Env.get_dimensions v' = lenS ∧
             (sz0.truthy = true → Env.shape_matches v' sz0 = .ok true)))) ∧
    (Env.set_variable c6Env "x" (.list [.int 1, .int 2, .int 3]) Option.none =
        .ok ⟨[("x", ⟨.list [.int 1, .int 2, .int 3], "integer", .list [.int 3]⟩)], []⟩) ∧
    (Env.set_variable c6Env "x" (.list [.int 1, .int 2]) Option.none =
        .error (.shapeMismatch "x")) ∧
    (Env.set_variable c6Env "x" (.list [.int 1, .int 2, .int 3, .int 4]) Option.none =
        .error (.shapeMismatch "x")) ∧
    (Env.get_variable c6Env "x" (some [.int 3]) = .error (.indexRange 3 3)) := by
  refine ⟨?_, rfl, rfl, rfl, rfl⟩
  intro env x value v0 ty0 sz0 hx
  simp only [set_variable_whole_eq env x v0 ty0 sz0 value hx]
  constructor
  · rintro ⟨env', h⟩
    cases hc : Env.coerce_any value ty0 with
    | error e => simp [hc] at h
    | ok v' =>
      simp only [hc] at h
      cases hl : pyLen sz0 with
      | error e => simp [hl] at h
      | ok lenS =>
        simp only [hl] at h
        by_cases hd : Env.get_dimensions v' = lenS
        · rw [if_neg (by simp [hd])] at h
          refine ⟨v', lenS, rfl, rfl, hd, ?_⟩
          intro ht
          rw [if_pos ht] at h
          cases hs : Env.shape_matches v' sz0 with
          | error e => simp [hs] at h
          | ok b =>
            simp only [hs] at h
            cases b with
            | false => simp at h
            | true => rfl
        · rw [if_pos (by simp [hd])] at h
          exact absurd h (by simp)
  · rintro ⟨v', lenS, hc, hl, hd, hs⟩
    simp only [hc, hl]
    simp only [if_neg (show ¬ (Env.get_dimensions v' ≠ lenS) by simp [hd])]
    by_cases ht : sz0.truthy
    · simp only [ht, if_true, hs ht]
      exact ⟨⟨dictSet env.vars x ⟨v', ty0, sz0⟩, env.functions⟩, by simp⟩
    · simp only [ht, if_false]
      exact ⟨_, rfl⟩

/-- Witness for C6 (amended): on the `integer[3]` store, the characterization
applied to the 3-element list yields a successful assignment. -/
theorem c6_witness :
    ∃ env', Env.set_variable c6Env "x" (.list [.int 1, .int 2, .int 3])
        Option.none = .ok env' := by
  have h := c6_whole_assignment_characterization.1 c6Env "x"
    (.list [.int 1, .int 2, .int 3]) (.list [.none, .none, .none]) "integer"
    (.list [.int 3]) rfl
  exact h.mpr ⟨.list [.int 1, .int 2, .int 3], 1, rfl, rfl, rfl, fun _ => rfl⟩


/-! ### Lemmas about parameter binding -/

/-- Declaring a scalar in an empty frame. -/
theorem declare_fresh (n t : String) (fs : List (String × Env.FuncEntry)) :
    Env.declare_variable ⟨[], fs⟩ n t = .ok ⟨[(n, ⟨.none, t, .list []⟩)], fs⟩ := rfl

/-- Assigning an integer to the only scalar of a one-entry frame. -/
theorem set_scalar_fresh (n t : String) (fs : List (String × Env.FuncEntry))
    (w : PyVal) (k : Int) :
    Env.set_variable ⟨[(n, ⟨w, t, .list []⟩)], fs⟩ n (.int k) =
      .ok ⟨[(n, ⟨.int k, t, .list []⟩)], fs⟩ := by
  simp only [Env.set_variable, dictGet, dictSet, eq_self_iff_true, if_true,
    Env.coerce_any, Env.coerce_scalar, pyLen, Env.get_dimensions, PyVal.truthy,
    Bind.bind, Except.bind]
  norm_num

/-- Declaring a second, distinct scalar in a one-entry frame appends it. -/
theorem declare_second (n1 : String) (e1 : Env.VarEntry) (n2 t2 : String)
    (fs : List (String × Env.FuncEntry)) (hne : n1 ≠ n2) :
    Env.declare_variable ⟨[(n1, e1)], fs⟩ n2 t2 =
      .ok ⟨[(n1, e1), (n2, ⟨.none, t2, .list []⟩)], fs⟩ := by
  simp only [Env.declare_variable, dictGet, dictSet, hne, if_false,
    Env.make_array, Env.make_array_list, Bind.bind, Except.bind]
  norm_num [hne]
  rfl

/-- Assigning an integer to the second scalar of a two-entry frame. -/
theorem set_scalar_second (n1 : String) (e1 : Env.VarEntry) (n2 t2 : String)
    (w : PyVal) (fs : List (String × Env.FuncEntry)) (k : Int) (hne : n1 ≠ n2) :
    Env.set_variable ⟨[(n1, e1), (n2, ⟨w, t2, .list []⟩)], fs⟩ n2 (.int k) =
      .ok ⟨[(n1, e1), (n2, ⟨.int k, t2, .list []⟩)], fs⟩ := by
  simp only [Env.set_variable, dictGet, dictSet, hne, if_false, eq_self_iff_true,
    if_true, Env.coerce_any, Env.coerce_scalar, pyLen, Env.get_dimensions,
    PyVal.truthy, Bind.bind, Except.bind]
  norm_num [hne]

/-- The checker's `body_guarantees_return` computes exactly the negation of
the spec-modelled `canFallThrough`: the code's recursion agrees with "every
execution path through the body ends in a return statement". -/
theorem bgr_eq_not_canFallThrough :
    ∀ n : Node, body_guarantees_return n = !canFallThrough n := by
  refine body_guarantees_return.induct
    (fun n => body_guarantees_return n = !canFallThrough n)
    (fun l => bgrList l = !cftList l) ?_ ?_ ?_ ?_ ?_ ?_ ?_ ?_
  · intro tt v
    rw [body_guarantees_return.eq_def, canFallThrough.eq_def]
    simp
  · intro cs
    rw [body_guarantees_return.eq_def, canFallThrough.eq_def]
    simp
  · intro cs _ ih
    rw [body_guarantees_return.eq_def, canFallThrough.eq_def]
    simpa using ih
  · intro head t e _ _ iht ihe
    rw [body_guarantees_return.eq_def, canFallThrough.eq_def]
    simp [iht, ihe]
  · intro x h _ _
    rw [body_guarantees_return.eq_def, canFallThrough.eq_def]
    rcases x with _ | ⟨a, _ | ⟨b, _ | ⟨c, _ | ⟨d, rest⟩⟩⟩⟩ <;> simp
    exact absurd rfl (fun hh => h a b c hh)
  · intro data cs h1 h2 h3
    rw [body_guarantees_return.eq_def, canFallThrough.eq_def]
    simp [h1, h2, h3]
  · show bgrList [] = !cftList []
    rw [bgrList.eq_def, cftList.eq_def]
    simp
  · intro c rest ih1 ih2
    rw [bgrList.eq_def, cftList.eq_def]
    simp [ih1, ih2, Bool.not_and]

/-! ### The claims -/

/-- C1: the static checker is not sound for runtime type errors.  The
program `c1Prog` — `f` declared `integer` but returning the array literal
`[1, 2]` (the checker infers `integer[]` and republishes the signature),
`main` declaring `integer x[2] = f()` — passes `SemanticsChecker.run`, yet
interpreting it raises `ArrayAssignmentError`, a TypeMismatch-kind runtime
error, while binding `x`. -/
theorem c1_checked_program_type_error :
    checkRun 60 c1Prog = .ok () ∧
    interpVisit 60 ⟨[], []⟩ ⟨[], []⟩ c1Prog = .error (.arrayAssignNonList "x") ∧
    (RErr.arrayAssignNonList "x").isTypeMismatchKind = true :=
  ⟨by decide, rfl, rfl⟩

/-- C2 counterexample: the block of `f` bubbles up the value `5`, but the
call expression `f()` evaluates to the none sentinel — `visit_postfix_expr`
re-visits the returned value object and discards it, so the block's bubbled
value never becomes the call's result. -/
theorem c2_counterexample :
    interpVisit 10 c2Env ⟨[], []⟩ c2Call = .ok (.none, c2Env, ⟨[], []⟩) ∧
    interpVisit 9 ⟨[], c2Env.functions⟩ ⟨[], []⟩ c2FBlock =
      .ok (.int 5, ⟨[], c2Env.functions⟩, ⟨[], []⟩) := ⟨rfl, rfl⟩

/-- C2 (amended): a call of a declared function evaluates the body in a
fresh environment that shares the caller's function table, and the call
expression itself always evaluates to the none sentinel — with or without
arguments — because `visit_postfix_expr` re-visits the body's bubbled value
and discards it; the parameter-binding loop declares each parameter with
its statically declared type and binds it to the evaluated argument, in
order, in the fresh callee frame (stated as the loop's base and step
equations for arbitrary arguments and parameters, plus the closed-form
two-parameter instance). -/
theorem c2_call_protocol :
    (∀ (fuel : Nat) (env : Env.Environment) (io : IOState) (p : Node)
        (fname : String) (fent : Env.FuncEntry),
      nodeKey p = .ok fname → Env.get_function env fname = .ok fent →
      interpVisit (fuel + 1) env io (.tree "postfix_expr" [p, .tree "call_suffix" []]) =
        (match interpVisit fuel ⟨[], env.functions⟩ io fent.block with
         | .ok (_, _, io2) => .ok (.none, env, io2)
         | .error e => .error e)) ∧
    (∀ (fuel : Nat) (env callerEnv1 calleeEnv1 : Env.Environment)
        (io io1 : IOState) (p argsN : Node) (fname : String)
        (argCs : List Node) (fent : Env.FuncEntry),
      nodeKey p = .ok fname →
      nodeChildren argsN = .ok argCs →
      interpBindParams fuel env io ⟨[], env.functions⟩ fname argCs 0 =
        .ok (callerEnv1, calleeEnv1, io1) →
      Env.get_function callerEnv1 fname = .ok fent →
      interpVisit (fuel + 1) env io
          (.tree "postfix_expr" [p, .tree "call_suffix" [argsN]]) =
        (match interpVisit fuel calleeEnv1 io1 fent.block with
         | .ok (_, _, io2) => .ok (.none, callerEnv1, io2)
         | .error e => .error e)) ∧
    (∀ (fuel : Nat) (callerEnv calleeEnv : Env.Environment) (io : IOState)
        (fname : String) (i : Nat),
      interpBindParams (fuel + 1) callerEnv io calleeEnv fname [] i =
        .ok (callerEnv, calleeEnv, io)) ∧
    (∀ (fuel : Nat) (callerEnv callerEnv1 calleeEnv calleeEnv1 calleeEnv2 :
          Env.Environment) (io io1 : IOState) (fname : String) (a : Node)
        (rest : List Node) (i : Nat) (fent fent2 : Env.FuncEntry)
        (pd pd2 pd3 pd4 : String) (pcs pcs2 : List Node) (tN nN tN2 nN2 : Node)
        (pname ptype : String) (v : PyVal),
      Env.get_function callerEnv fname = .ok fent →
      fent.parameters = some (.tree pd pcs) →
      pcs.get? i = some (.tree pd2 [tN, nN]) →
      nodeValue nN = .ok pname →
      interpVisit fuel callerEnv io a = .ok (v, callerEnv1, io1) →
      Env.get_function callerEnv1 fname = .ok fent2 →
      fent2.parameters = some (.tree pd3 pcs2) →
      pcs2.get? i = some (.tree pd4 [tN2, nN2]) →
      nodeValue tN2 = .ok ptype →
      Env.declare_variable calleeEnv pname ptype = .ok calleeEnv1 →
      Env.set_variable calleeEnv1 pname v = .ok calleeEnv2 →
      interpBindParams (fuel + 1) callerEnv io calleeEnv fname (a :: rest) i =
        interpBindParams fuel callerEnv1 io1 calleeEnv2 fname rest (i + 1)) ∧
    (∀ (fuel : Nat) (env : Env.Environment) (io : IOState)
        (fname t1 t2 n1 n2 s1 s2 : String) (k1 k2 : Int) (fent : Env.FuncEntry),
      Env.get_function env fname = .ok fent →
      fent.parameters = some (.tree "params"
        [.tree "param" [.token "TYPE" t1, .token "ID" n1],
         .tree "param" [.token "TYPE" t2, .token "ID" n2]]) →
      Env.parsePyInt s1 = some k1 → Env.parsePyInt s2 = some k2 → n1 ≠ n2 →
      interpBindParams (fuel + 3) env io ⟨[], env.functions⟩ fname
          [.token "INT" s1, .token "INT" s2] 0 =
        .ok (env, ⟨[(n1, ⟨.int k1, t1, .list []⟩), (n2, ⟨.int k2, t2, .list []⟩)],
             env.functions⟩, io)) := by
  refine ⟨?_, ?_, ?_, ?_, ?_⟩
  · intro fuel env io p fname fent hk hf
    simp only [interpVisit, listGetE, hk, hf, Bind.bind, Except.bind,
      String.reduceEq, reduceIte, List.get?, List.length, Nat.reduceAdd,
      Nat.reduceSub]
    split
    · exact absurd (by assumption) (by decide)
    · cases interpVisit fuel ⟨[], env.functions⟩ io fent.block <;> rfl
  · intro fuel env callerEnv1 calleeEnv1 io io1 p argsN fname argCs fent
      hk ha hbind hf
    simp only [interpVisit, listGetE, hk, ha, hbind, hf,
      Bind.bind, Except.bind, String.reduceEq, reduceIte, List.get?,
      List.length, Nat.reduceAdd, Nat.reduceSub]
    cases interpVisit fuel calleeEnv1 io1 fent.block <;> rfl
  · intro fuel callerEnv calleeEnv io fname i
    rfl
  · intro fuel callerEnv callerEnv1 calleeEnv calleeEnv1 calleeEnv2 io io1
      fname a rest i fent fent2 pd pd2 pd3 pd4 pcs pcs2 tN nN tN2 nN2
      pname ptype v h1 h2 h3 h4 h5 h6 h7 h8 h9 h10 h11
    rw [interpBindParams.eq_def]
    simp only [h1, h2, h3, h4, h5, h6, h7, h8, h9, h10, h11, nodeChildren,
      listGetE, List.get?, Bind.bind, Except.bind]
  · intro fuel env io fname t1 t2 n1 n2 s1 s2 k1 k2 fent hf hp h1 h2 hne
    have ev1 : interpVisit (fuel + 2) env io (.token "INT" s1) =
        .ok (.int k1, env, io) := by
      simp only [interpVisit, h1]
      rfl
    have ev2 : interpVisit (fuel + 1) env io (.token "INT" s2) =
        .ok (.int k2, env, io) := by
      simp only [interpVisit, h2]
      rfl
    show interpBindParams ((fuel + 2) + 1) env io ⟨[], env.functions⟩ fname
          [.token "INT" s1, .token "INT" s2] 0 = _
    rw [interpBindParams.eq_def]
    simp only [hf, hp, nodeChildren, listGetE, nodeValue, ev1,
      declare_fresh, set_scalar_fresh,
      Bind.bind, Except.bind, List.get?]
    show interpBindParams ((fuel + 1) + 1) env io _ fname [.token "INT" s2] 1 = _
    rw [interpBindParams.eq_def]
    simp only [hf, hp, nodeChildren, listGetE, nodeValue, ev2,
      declare_second _ _ _ _ _ hne, set_scalar_second _ _ _ _ _ _ _ hne,
      Bind.bind, Except.bind, List.get?]
    show interpBindParams (fuel + 1) env io _ fname [] 2 = _
    rw [interpBindParams.eq_def]

/-- Witness for C2 (amended): the protocol applied to the no-argument call
`f()` in `c2Env`, to the end-to-end call `g(1, 2)` in `c2GEnv` (the body
runs in the bound frame `c2GFrame` and the call yields none), and to the
binding loop's closed form and single step at concrete inputs. -/
theorem c2_witness :
    interpVisit 10 c2Env ⟨["q"], []⟩
        (.tree "postfix_expr" [.token "ID" "f", .tree "call_suffix" []]) =
      (match interpVisit 9 ⟨[], c2Env.functions⟩ ⟨["q"], []⟩ c2FBlock with
       | .ok (_, _, io2) => .ok (.none, c2Env, io2)
       | .error e => .error e) ∧
    interpVisit 10 c2GEnv ⟨[], []⟩ c2GCall =
      (match interpVisit 9 c2GFrame ⟨[], []⟩ (.tree "block" []) with
       | .ok (_, _, io2) => .ok (.none, c2GEnv, io2)
       | .error e => .error e) ∧
    interpBindParams 9 c2GEnv ⟨[], []⟩ ⟨[], c2GEnv.functions⟩ "g"
        [.token "INT" "1", .token "INT" "2"] 0 =
      .ok (c2GEnv, c2GFrame, ⟨[], []⟩) ∧
    interpBindParams 9 c2GEnv ⟨[], []⟩ ⟨[], c2GEnv.functions⟩ "g"
        [.token "INT" "7"] 1 =
      interpBindParams 8 c2GEnv ⟨[], []⟩
        ⟨[("b", ⟨.int 7, "integer", .list []⟩)], c2GEnv.functions⟩ "g" [] 2 :=
  ⟨c2_call_protocol.1 9 c2Env ⟨["q"], []⟩ (.token "ID" "f") "f" _ rfl rfl,
   c2_call_protocol.2.1 9 c2GEnv c2GEnv c2GFrame ⟨[], []⟩ ⟨[], []⟩
      (.token "ID" "g") (.tree "args" [.token "INT" "1", .token "INT" "2"])
      "g" [.token "INT" "1", .token "INT" "2"]
      ⟨"noType", .tree "block" [], some c2GParams⟩ rfl rfl rfl rfl,
   c2_call_protocol.2.2.2.2 6 c2GEnv ⟨[], []⟩ "g" "integer" "integer" "a" "b"
      "1" "2" 1 2 ⟨"noType", .tree "block" [], some c2GParams⟩
      rfl rfl rfl rfl (by decide),
   c2_call_protocol.2.2.2.1 8 c2GEnv c2GEnv ⟨[], c2GEnv.functions⟩
      ⟨[("b", ⟨.none, "integer", .list []⟩)], c2GEnv.functions⟩
      ⟨[("b", ⟨.int 7, "integer", .list []⟩)], c2GEnv.functions⟩
      ⟨[], []⟩ ⟨[], []⟩ "g" (.token "INT" "7") [] 1
      ⟨"noType", .tree "block" [], some c2GParams⟩
      ⟨"noType", .tree "block" [], some c2GParams⟩
      "params" "param" "params" "param"
      [.tree "param" [.token "TYPE" "integer", .token "ID" "a"],
       .tree "param" [.token "TYPE" "integer", .token "ID" "b"]]
      [.tree "param" [.token "TYPE" "integer", .token "ID" "a"],
       .tree "param" [.token "TYPE" "integer", .token "ID" "b"]]
      (.token "TYPE" "integer") (.token "ID" "b")
      (.token "TYPE" "integer") (.token "ID" "b")
      "b" "integer" (.int 7)
      rfl rfl rfl rfl rfl rfl rfl rfl rfl rfl rfl⟩

/-- C3: for every non-void return type, the checker's return-guarantee gate
accepts a body exactly when no execution path can fall off its end without
returning (`canFallThrough` is the spec-side reading of "every execution
path ends in a return"); concretely, an if/else returning in both branches
passes, removing the else, or one branch's return, fails with
`NoReturnError`, a return inside a while loop never counts, and
`NoReturnError` is a Structure-kind error. -/
theorem c3_return_guarantee :
    (∀ (fname rt : String) (body : Node), rt ≠ "noType" →
      (returnGuaranteeCheck fname rt body = .ok () ↔ canFallThrough body = false)) ∧
    returnGuaranteeCheck "f" "integer" c3IfElse = .ok () ∧
    returnGuaranteeCheck "f" "integer" c3NoElse = .error (.noReturn "f") ∧
    returnGuaranteeCheck "f" "integer" c3OneRet = .error (.noReturn "f") ∧
    returnGuaranteeCheck "f" "integer" c3While = .error (.noReturn "f") ∧
    (CErr.noReturn "f").kind = .structureK := by
  refine ⟨?_, by decide, by decide, by decide, by decide, rfl⟩
  intro fname rt body h
  rw [returnGuaranteeCheck]
  rw [bgr_eq_not_canFallThrough body]
  constructor
  · intro hok
    by_contra hc
    have hc2 : canFallThrough body = true := by
      cases hcb : canFallThrough body
      · exact absurd hcb hc
      · rfl
    rw [hc2] at hok
    simp [h] at hok
  · intro hcf
    rw [hcf]
    simp

/-- Witness for C3: the equivalence applied to the `integer`-typed while
body at a concrete input. -/
theorem c3_witness :
    returnGuaranteeCheck "f" "integer" c3While = .ok () ↔
      canFallThrough c3While = false :=
  c3_return_guarantee.1 "f" "integer" c3While (by decide)

/-- C4 counterexample: a program defining two functions named `main` fails,
but with `DuplicateIdentifierError` — a Scope-kind error from the function
table, not the Structure-kind error the claim requires. -/
theorem c4_counterexample :
    checkRun 50 c4TwoMain = .error (.duplicateIdentifier "main") ∧
    (CErr.duplicateIdentifier "main").kind = CKind.scopeK ∧
    ¬ (CErr.duplicateIdentifier "main").kind = CKind.structureK := by
  refine ⟨by decide, rfl, by decide⟩

/-- C4 (amended): the global main check `post_checks` succeeds exactly when
the recorded definition order contains exactly one `main` and ends with it;
omitting `main` fails with `MissingMainError` and misplacing it with
`MainNotLastError`, both Structure-kind, while a duplicate `main` is caught
earlier, by function registration, as a Scope-kind duplicate-identifier
error; a well-formed program passes. -/
theorem c4_main_last_characterization :
    (∀ order : List String,
        post_checks order = .ok () ↔
          (order.count "main" = 1 ∧ order ≠ [] ∧ order.getLast? = some "main")) ∧
    checkRun 50 c4Omit = .error .mainMissing ∧
    checkRun 50 c4NotLast = .error .mainNotLast ∧
    CErr.mainMissing.kind = .structureK ∧
    CErr.mainNotLast.kind = .structureK ∧
    checkRun 50 c4Ok = .ok () := by
  refine ⟨?_, by decide, by decide, rfl, rfl, by decide⟩
  intro order
  constructor
  · intro hok
    by_cases h1 : order.count "main" = 1
    · by_cases h2 : order ≠ [] ∧ order.getLast? = some "main"
      · exact ⟨h1, h2.1, h2.2⟩
      · rw [post_checks, if_neg (not_not.mpr h1), if_pos h2] at hok
        exact absurd hok (by simp)
    · rw [post_checks, if_pos h1] at hok
      exact absurd hok (by simp)
  · rintro ⟨h1, h2, h3⟩
    rw [post_checks, if_neg (not_not.mpr h1), if_neg (not_not.mpr ⟨h2, h3⟩)]

/-- C5 counterexample: the bare expression statement `5;` terminates the
block — `c5Block` evaluates to the bubbled value `5` and the following
output statement is never executed (no output line) — and a bare `return`
with no value does not bubble a distinguishable sentinel but crashes with a
raw IndexError. -/
theorem c5_counterexample :
    interpVisit 10 ⟨[], []⟩ ⟨[], []⟩ c5Block =
      .ok (.int 5, ⟨[], []⟩, ⟨[], []⟩) ∧
    interpVisit 3 ⟨[], []⟩ ⟨[], []⟩ (.tree "return_stmt" []) =
      .error .pyIndexError := ⟨rfl, rfl⟩

/-- C5 (amended): a block executes its statements in order and terminates
early exactly when a statement evaluates to a non-none value — any
statement's value short-circuits it, not only a return's (a bare expression
statement's value does so too); a none-valued statement lets execution
continue; a `return e` statement bubbles the value of `e`. -/
theorem c5_block_bubbling :
    (∀ (fuel : Nat) (env env' : Env.Environment) (io io' : IOState) (s : Node)
        (rest : List Node) (v : PyVal),
      interpVisit fuel env io s = .ok (v, env', io') → v ≠ .none →
      interpStmts (fuel + 1) env io (s :: rest) = .ok (v, env', io')) ∧
    (∀ (fuel : Nat) (env env' : Env.Environment) (io io' : IOState) (s : Node)
        (rest : List Node),
      interpVisit fuel env io s = .ok (.none, env', io') →
      interpStmts (fuel + 1) env io (s :: rest) = interpStmts fuel env' io' rest) ∧
    (∀ (fuel : Nat) (env : Env.Environment) (io : IOState) (l : List Node),
      interpVisit (fuel + 1) env io (.tree "block" l) = interpStmts fuel env io l) ∧
    (∀ (fuel : Nat) (env : Env.Environment) (io : IOState) (c : Node),
      interpVisit (fuel + 1) env io (.tree "return_stmt" [c]) =
        interpVisit fuel env io c) := by
  refine ⟨?_, ?_, ?_, ?_⟩
  · intro fuel env env' io io' s rest v h hv
    simp only [interpStmts, h, Bind.bind, Except.bind]
  · intro fuel env env' io io' s rest h
    simp only [interpStmts, h, Bind.bind, Except.bind]
  · intro fuel env io l
    rfl
  · intro fuel env io c
    rfl

/-- Witness for C5 (amended): a non-none statement value short-circuits a
two-statement list, a none-valued output statement lets it continue. -/
theorem c5_witness :
    interpStmts 3 ⟨[], []⟩ ⟨[], []⟩ [.token "INT" "9", .token "INT" "8"] =
      .ok (.int 9, ⟨[], []⟩, ⟨[], []⟩) ∧
    interpStmts 3 ⟨[], []⟩ ⟨[], []⟩
        [.tree "output_stmt" [.token "INT" "7"], .token "INT" "8"] =
      interpStmts 2 ⟨[], []⟩ ⟨[], ["7"]⟩ [.token "INT" "8"] :=
  ⟨c5_block_bubbling.1 2 ⟨[], []⟩ ⟨[], []⟩ ⟨[], []⟩ ⟨[], []⟩ (.token "INT" "9")
      [.token "INT" "8"] (.int 9) rfl (by simp),
   c5_block_bubbling.2.1 2 ⟨[], []⟩ ⟨[], []⟩ ⟨[], []⟩ ⟨[], ["7"]⟩
      (.tree "output_stmt" [.token "INT" "7"]) [.token "INT" "8"] rfl⟩

/-- C7: a division with matching numeric operand types checks as `decimal`;
on the value side integer division always yields a float (`10 / 2` is the
float `5.0`), and a float value is never the integer value `5`. -/
theorem c7_division_always_decimal :
    (∀ (fuel : Nat) (st st1 st2 : CState) (a op b : Node) (lt rt : Option String),
      checkVisit fuel st a = .ok (lt, st1) →
      cValue op = .ok "/" →
      checkVisit fuel st1 b = .ok (rt, st2) →
      lt = rt → (lt = some "integer" ∨ lt = some "decimal") →
      checkVisit (fuel + 1) st (.tree "arit_expr" [a, op, b]) =
        .ok (some "decimal", st2)) ∧
    (∀ x y : Int, y ≠ 0 →
      pyDivV (.int x) (.int y) = .ok (.float ((x : Rat) / (y : Rat)))) ∧
    (∀ (fuel : Nat) (env : Env.Environment) (io : IOState),
      interpVisit (fuel + 3) env io (.tree "mul_expr"
        [.token "INT" "10", .token "OP" "/", .token "INT" "2"]) =
        .ok (.float 5, env, io)) ∧
    (∀ q : Rat, PyVal.float q ≠ PyVal.int 5) := by
  refine ⟨?_, ?_, ?_, ?_⟩
  · intro fuel st st1 st2 a op b lt rt ha hop hb heq hnum
    subst heq
    rw [checkVisit.eq_def]
    simp only [String.reduceEq, reduceIte, cListGet, List.get?, ha, hb, hop,
      List.length, Nat.reduceAdd, Bind.bind, Except.bind]
    norm_num
    rcases hnum with h | h <;> subst h <;> simp
  · intro x y hy
    simp only [pyDivV, pyArith, PyVal.asIntNum, String.reduceEq, reduceIte]
    norm_num [hy]
  · intro fuel env io
    have h : interpVisit (fuel + 3) env io (.tree "mul_expr"
        [.token "INT" "10", .token "OP" "/", .token "INT" "2"]) =
        .ok (.float (((10 : Int) : Rat) / ((2 : Int) : Rat)), env, io) := rfl
    rw [h]
    norm_num
  · intro q h
    exact PyVal.noConfusion h

/-- Witness for C7: `10 / 2` checked from a fresh checker state, and divided
on the value side, at concrete inputs. -/
theorem c7_witness :
    checkVisit 6 {} (.tree "arit_expr"
      [.token "INT" "10", .token "OP" "/", .token "INT" "2"]) =
      .ok (some "decimal", {}) ∧
    pyDivV (.int 10) (.int 2) = .ok (.float (((10 : Int) : Rat) / ((2 : Int) : Rat))) :=
  ⟨c7_division_always_decimal.1 5 {} {} {} _ _ _ _ _ rfl rfl rfl rfl (Or.inl rfl),
   c7_division_always_decimal.2.1 10 2 (by decide)⟩

/-- C8: with the input stream exhausted, evaluating an input expression
fails with `EOFError` — an I/O-kind error, not a TypeMismatch-kind one. -/
theorem c8_input_exhausted :
    (∀ (fuel : Nat) (env : Env.Environment) (io : IOState) (cs : List Node),
      io.input = [] →
      interpVisit (fuel + 1) env io (.tree "input_stmt" cs) = .error .eofError) ∧
    RErr.eofError.isIOKind = true ∧
    RErr.eofError.isTypeMismatchKind = false := by
  refine ⟨?_, rfl, rfl⟩
  intro fuel env io cs h
  cases io with
  | mk inp out =>
    simp only at h
    subst h
    rfl

/-- Witness for C8: an exhausted input stream at concrete fuel and state. -/
theorem c8_witness :
    interpVisit 4 ⟨[], []⟩ ⟨[], ["5"]⟩ (.tree "input_stmt" []) =
      .error .eofError :=
  c8_input_exhausted.1 3 ⟨[], []⟩ ⟨[], ["5"]⟩ [] rfl
